import Mathlib

/-!
# Verification of the hallucination-auditor citation pipeline

Shallow embedding of the Python sources under `scripts/` (citation
extraction, URL resolution, fetching, authority parsing and claim
verification) together with proofs about the embedded functions.

The Python code is regex-heavy, so we first build a small backtracking
regular-expression engine whose candidate order mirrors CPython's `re`
module (leftmost position, ordered alternation, greedy/lazy repetition),
restricted to the constructs the sources actually use.  External
libraries (`requests`, `bs4`, `hashlib`, the XML parser) are modelled as
explicit environment parameters; everything else is translated directly
from the source.
-/

attribute [local semireducible] Rat.mul Rat.inv Rat.add Rat.sub Rat.ofScientific

namespace Audit

/-! ## Regular-expression engine

`RE` is the abstract syntax of the regex fragment used by the sources:
character classes, ordered alternation, concatenation, greedy star
(items are required to consume at least one character, which holds for
every starred subpattern in the sources), lazy star, capture groups,
lookahead, word boundary and end anchor. -/

inductive RE where
  | eps
  | cls (p : Char → Bool)
  | cat (a b : RE)
  | alt (a b : RE)
  | star (a : RE)
  | starL (a : RE)
  | grp (i : Nat) (a : RE)
  | look (a : RE)
  | wordB
  | eos

/-- Python word character (`\w`) for the ASCII inputs handled here. -/
def wordChar (c : Char) : Bool := c.isAlphanum || c == '_'

def isWordOpt : Option Char → Bool
  | none => false
  | some c => wordChar c

/-- Last character consumed by a match of length `l` starting at `s`
(used to evaluate a following word-boundary assertion). -/
def lastChar (prev : Option Char) (s : List Char) (l : Nat) : Option Char :=
  if l = 0 then prev else (s.take l).getLast?

/-- Size of a pattern, used to compute a sufficient recursion fuel. -/
def reSizeN : RE → Nat
  | .eps => 1
  | .cls _ => 1
  | .cat a b => 1 + reSizeN a + reSizeN b
  | .alt a b => 1 + reSizeN a + reSizeN b
  | .star a => 1 + reSizeN a
  | .starL a => 1 + reSizeN a
  | .grp _ a => 1 + reSizeN a
  | .look a => 1 + reSizeN a
  | .wordB => 1
  | .eos => 1

/-- All candidate matches of `re` at the head of `s`, as
(length, captures) pairs in CPython backtracking preference order
(first candidate = the match `re` would select).  `prev` is the
character immediately before `s` (for `\b`).  The recursion is fuelled
so that it is structural (and hence kernel-reducible); every recursive
call strictly decreases `reSizeN re + s.length` (`star`/`starL`
re-enter only on candidates that consumed at least one character, which
holds for every starred subpattern here), so `reSizeN re + s.length + 1`
fuel always suffices. -/
def Mlist : Nat → RE → Option Char → List Char → List (Nat × List (Nat × String))
  | 0, _, _, _ => []
  | _ + 1, .eps, _, _ => [(0, [])]
  | _ + 1, .cls p, _, s =>
    match s with
    | [] => []
    | c :: _ => if p c then [(1, [])] else []
  | fuel + 1, .cat a b, prev, s =>
    (Mlist fuel a prev s).flatMap (fun x =>
      (Mlist fuel b (lastChar prev s x.1) (s.drop x.1)).map
        (fun y => (x.1 + y.1, x.2 ++ y.2)))
  | fuel + 1, .alt a b, prev, s => Mlist fuel a prev s ++ Mlist fuel b prev s
  | fuel + 1, .star a, prev, s =>
    ((Mlist fuel a prev s).filter (fun x => decide (0 < x.1))).flatMap
      (fun x =>
        (Mlist fuel (.star a) (lastChar prev s x.1) (s.drop x.1)).map
          (fun y => (x.1 + y.1, x.2 ++ y.2))) ++ [(0, [])]
  | fuel + 1, .starL a, prev, s =>
    (0, []) ::
    ((Mlist fuel a prev s).filter (fun x => decide (0 < x.1))).flatMap
      (fun x =>
        (Mlist fuel (.starL a) (lastChar prev s x.1) (s.drop x.1)).map
          (fun y => (x.1 + y.1, x.2 ++ y.2)))
  | fuel + 1, .grp i a, prev, s =>
    (Mlist fuel a prev s).map (fun x => (x.1, x.2 ++ [(i, (s.take x.1).asString)]))
  | fuel + 1, .look a, prev, s =>
    if (Mlist fuel a prev s).isEmpty then [] else [(0, [])]
  | _ + 1, .wordB, prev, s =>
    if isWordOpt prev != isWordOpt s.head? then [(0, [])] else []
  | _ + 1, .eos, _, s =>
    if s.isEmpty || s == ['\n'] then [(0, [])] else []

/-- The match CPython's `re` selects at the head of `s`: the first
candidate in preference order. -/
def matchHere (re : RE) (prev : Option Char) (s : List Char) :
    Option (Nat × List (Nat × String)) :=
  (Mlist (reSizeN re + s.length + 1) re prev s).head?

/-- One result of `re.search` / `re.finditer`: start offset, matched
text and captured groups. -/
structure MatchRes where
  start : Nat
  str : String
  caps : List (Nat × String)
deriving Repr, DecidableEq

/-- `re.search`: leftmost match of `re` in `s`. -/
def searchAux (re : RE) : Option Char → List Char → Nat → Option MatchRes
  | prev, s, pos =>
    match matchHere re prev s with
    | some x => some ⟨pos, (s.take x.1).asString, x.2⟩
    | none =>
      match s with
      | [] => none
      | c :: rest => searchAux re (some c) rest (pos + 1)

def reSearch (re : RE) (text : String) : Option MatchRes :=
  searchAux re none text.toList 0

/-- `re.finditer`: non-overlapping matches scanning left to right.
(The patterns in the sources never match the empty string; a zero-width
match nonetheless advances one position so the scan terminates.) -/
def findAux (re : RE) : Nat → Option Char → List Char → Nat → List MatchRes
  | 0, _, _, _ => []
  | fuel + 1, prev, s, pos =>
    match matchHere re prev s with
    | some x =>
      if x.1 = 0 then
        ⟨pos, "", x.2⟩ ::
        (match s with
         | [] => []
         | c :: rest => findAux re fuel (some c) rest (pos + 1))
      else
        ⟨pos, (s.take x.1).asString, x.2⟩ ::
        findAux re fuel (lastChar prev s x.1) (s.drop x.1) (pos + x.1)
    | none =>
      match s with
      | [] => []
      | c :: rest => findAux re fuel (some c) rest (pos + 1)

def reFindIter (re : RE) (text : String) : List MatchRes :=
  findAux re (text.length + 1) none text.toList 0

/-- Captured group `i` of a match (empty string when absent, matching
how the sources use `match.group(i)` on always-participating groups). -/
def capGet (caps : List (Nat × String)) (i : Nat) : String :=
  ((caps.find? (fun x => x.1 == i)).map (fun x => x.2)).getD ""

/-! ### Pattern constructors -/

def reChar (c : Char) : RE := .cls (fun x => x == c)

/-- Case-insensitive single character (for patterns compiled with
`re.IGNORECASE`). -/
def reCharI (c : Char) : RE := .cls (fun x => x.toLower == c.toLower)

def reStr (s : String) : RE := s.toList.foldr (fun c r => RE.cat (reChar c) r) .eps

def reStrI (s : String) : RE := s.toList.foldr (fun c r => RE.cat (reCharI c) r) .eps

def reFail : RE := .cls (fun _ => false)

/-- Ordered alternation of a list of alternatives. -/
def reAlts (l : List RE) : RE := l.foldr .alt reFail

/-- `r{n}` -/
def reRep : Nat → RE → RE
  | 0, _ => .eps
  | n + 1, r => .cat r (reRep n r)

/-- greedy `r{0,n}` -/
def reUpTo : Nat → RE → RE
  | 0, _ => .eps
  | n + 1, r => .alt (.cat r (reUpTo n r)) .eps

/-- greedy `r+` -/
def rePlus (r : RE) : RE := .cat r (.star r)

/-- lazy `r+?` -/
def rePlusL (r : RE) : RE := .cat r (.starL r)

/-- greedy `r?` -/
def reOpt (r : RE) : RE := .alt r .eps

/-- greedy `r{m,}` -/
def reAtLeast (m : Nat) (r : RE) : RE := .cat (reRep m r) (.star r)

/-- Python `\d` (ASCII digits for the inputs handled here). -/
def reDigit : RE := .cls Char.isDigit

/-- Python `\s` -/
def isPySpace (c : Char) : Bool :=
  c == ' ' || c == '\t' || c == '\n' || c == '\r' || c == '\x0b' || c == '\x0c'

def reWs : RE := .cls isPySpace

/-- Python `\S` -/
def reNonWs : RE := .cls (fun c => !isPySpace c)

/-- Python `\w` -/
def reWord : RE := .cls wordChar

def reUpper : RE := .cls (fun c => 'A' ≤ c && c ≤ 'Z')
def reLower : RE := .cls (fun c => 'a' ≤ c && c ≤ 'z')
def reAlpha : RE := .cls (fun c => ('A' ≤ c && c ≤ 'Z') || ('a' ≤ c && c ≤ 'z'))
def reAlnumC : RE := .cls (fun c => c.isDigit || ('A' ≤ c && c ≤ 'Z') || ('a' ≤ c && c ≤ 'z'))

/-! ### Python string helpers -/

/-- Python `needle in hay` on lists of characters. -/
def listContains (hay needle : List Char) : Bool :=
  if needle.isPrefixOf hay then true
  else
    match hay with
    | [] => false
    | _ :: rest => listContains rest needle

/-- Python `needle in hay` on strings. -/
def strContains (hay needle : String) : Bool :=
  listContains hay.toList needle.toList

/-- Python `s.startswith(p)`. -/
def strStarts (s p : String) : Bool := p.toList.isPrefixOf s.toList

/-- Python `s.endswith(p)`. -/
def strEnds (s p : String) : Bool := p.toList.reverse.isPrefixOf s.toList.reverse

/-- Python `s.lower()` (ASCII). -/
def pyLower (s : String) : String := (s.toList.map Char.toLower).asString

/-- Python `s.upper()` (ASCII). -/
def pyUpper (s : String) : String := (s.toList.map Char.toUpper).asString

/-- Python `s.strip()` (for the ASCII whitespace handled here). -/
def pyStrip (s : String) : String :=
  (((s.toList.dropWhile isPySpace).reverse.dropWhile isPySpace).reverse).asString

/-- Python `s[:n]`. -/
def pyTake (s : String) (n : Nat) : String := (s.toList.take n).asString

/-- Python `int(s)` on a string of decimal digits (`none` otherwise). -/
def digitsToNat (s : String) : Option Nat :=
  if s.toList.isEmpty then none
  else s.toList.foldl
    (fun acc c => acc.bind (fun a => if c.isDigit then some (a * 10 + (c.toNat - 48)) else none))
    (some 0)

/-- Python truthiness of an optional string (`None` and `""` are falsy). -/
def truthyS : Option String → Bool
  | none => false
  | some s => !s.toList.isEmpty

/-- Insert `x` into `l` after every element `y` with `le y x` (so ties
keep their original order). -/
def insertSorted (le : α → α → Bool) (x : α) : List α → List α
  | [] => [x]
  | y :: rest => if le y x then y :: insertSorted le x rest else x :: y :: rest

/-- Stable insertion sort.  For a total preorder `le` this produces the
unique stable ordering, which is what Python's `list.sort` (with
`key=...` and optionally `reverse=True`, both stable) produces; it is
therefore an exact model of the `sort` calls in the sources. -/
def pySort (le : α → α → Bool) (l : List α) : List α :=
  l.foldl (fun acc x => insertSorted le x acc) []

theorem mem_insertSorted (le : α → α → Bool) (x : α) (l : List α) (a : α)
    (h : a ∈ insertSorted le x l) : a = x ∨ a ∈ l := by
  induction l with
  | nil => simpa [insertSorted] using h
  | cons y rest ih =>
    by_cases hle : le y x = true
    · simp only [insertSorted, hle, if_true] at h
      rcases List.mem_cons.mp h with h | h
      · exact Or.inr (by simp [h])
      · rcases ih h with h' | h'
        · exact Or.inl h'
        · exact Or.inr (List.mem_cons_of_mem _ h')
    · simp only [insertSorted, hle, if_false] at h
      rcases List.mem_cons.mp h with h | h
      · exact Or.inl h
      · exact Or.inr h

theorem pairwise_insertSorted (le : α → α → Bool)
    (trans : ∀ a b c, le a b = true → le b c = true → le a c = true)
    (total : ∀ a b, le a b = true ∨ le b a = true)
    (x : α) (l : List α) (h : l.Pairwise (fun a b => le a b = true)) :
    (insertSorted le x l).Pairwise (fun a b => le a b = true) := by
  induction l with
  | nil => simp [insertSorted]
  | cons y rest ih =>
    rcases List.pairwise_cons.mp h with ⟨hy, hrest⟩
    by_cases hle : le y x = true
    · simp only [insertSorted, hle, if_true]
      refine List.pairwise_cons.mpr ⟨?_, ih hrest⟩
      intro a ha
      rcases mem_insertSorted le x rest a ha with rfl | ha'
      · exact hle
      · exact hy a ha'
    · simp only [insertSorted, hle, if_false]
      have hxy : le x y = true := by
        rcases total x y with h' | h'
        · exact h'
        · exact absurd h' hle
      refine List.pairwise_cons.mpr ⟨?_, h⟩
      intro a ha
      rcases List.mem_cons.mp ha with rfl | ha'
      · exact hxy
      · exact trans x y a hxy (hy a ha')

theorem pairwise_pySort (le : α → α → Bool)
    (trans : ∀ a b c, le a b = true → le b c = true → le a c = true)
    (total : ∀ a b, le a b = true ∨ le b a = true)
    (l : List α) : (pySort le l).Pairwise (fun a b => le a b = true) := by
  have : ∀ (l : List α) (acc : List α),
      acc.Pairwise (fun a b => le a b = true) →
      (l.foldl (fun acc x => insertSorted le x acc) acc).Pairwise
        (fun a b => le a b = true) := by
    intro l
    induction l with
    | nil => intro acc hacc; simpa using hacc
    | cons x rest ih =>
      intro acc hacc
      exact ih _ (pairwise_insertSorted le trans total x acc hacc)
  exact this l [] (by simp)

/-- Python `round(x, 2)` on an exact rational value: round half to even
at two decimal places. -/
def round2 (x : ℚ) : ℚ :=
  let y : ℚ := 100 * x
  let f : ℤ := ⌊y⌋
  let r : ℚ := y - f
  let n : ℤ :=
    if r < 1/2 then f
    else if 1/2 < r then f + 1
    else if f % 2 = 0 then f else f + 1
  (n : ℚ) / 100

/-! ## scripts/verify_claim.py -/

/-- Stop words removed by `extract_keywords`. -/
def verifyStopWords : List String :=
  ["that", "this", "with", "from", "have", "been", "were", "will",
   "would", "could", "should", "their", "there", "where", "which", "when"]

/-- The pattern `\b[a-zA-Z]{4,}\b` (with `min_length = 4`). -/
def keywordRE : RE :=
  .cat .wordB (.cat (reAtLeast 4 reAlpha) .wordB)

/-- `extract_keywords(text)`: words of `re.findall(r"\b[a-zA-Z]{4,}\b",
text.lower())` as a set, minus the stop words. -/
def extract_keywords (text : String) : Finset String :=
  ((reFindIter keywordRE (pyLower text)).map (fun m => m.str)).toFinset \
    verifyStopWords.toFinset

/-- `calculate_keyword_overlap(claim_text, authority_text)`. -/
def calculate_keyword_overlap (claim_text authority_text : String) : ℚ :=
  let claim_keywords := extract_keywords claim_text
  let authority_keywords := extract_keywords authority_text
  if claim_keywords = ∅ then 0
  else ((claim_keywords ∩ authority_keywords).card : ℚ) / claim_keywords.card

/-- A paragraph of a parsed authority (the fields `verify_claim.py`
reads from each paragraph dict). -/
structure Paragraph where
  para_num : String
  text : String
  speaker : Option String
deriving Repr, DecidableEq

/-- One entry of `find_matching_paragraphs`' result. -/
structure MatchPara where
  para_num : String
  text : String
  similarity_score : ℚ
  match_type : String
deriving Repr, DecidableEq

/-- `find_matching_paragraphs(claim_text, paragraphs, threshold)`. -/
def find_matching_paragraphs (claim_text : String) (paragraphs : List Paragraph)
    (threshold : ℚ) : List MatchPara :=
  let found := (paragraphs.filterMap (fun para =>
    let para_text := para.text
    let overlap := calculate_keyword_overlap claim_text para_text
    if threshold ≤ overlap then
      some { para_num := para.para_num
             text := if 200 < para_text.length then pyTake para_text 200 ++ "..." else para_text
             similarity_score := round2 overlap
             match_type := if (6 : ℚ)/10 ≤ overlap then "keyword" else "partial" }
    else none))
  pySort (fun a b => decide (b.similarity_score ≤ a.similarity_score)) found

/-- `classify_hallucination_type(outcome, resolution_status,
case_retrieved)`: returns the pair (lee_type, lee_type_name). -/
def classify_hallucination_type (outcome : String) (resolution_status : String)
    (case_retrieved : Bool) : Option String × Option String :=
  if outcome == "supported" then (none, none)
  else if outcome == "needs_review" && case_retrieved then (none, none)
  else if !case_retrieved && (resolution_status == "not_found" || resolution_status == "unresolved") then
    (some "1", some "Fabricated Case & Citation")
  else if case_retrieved && (outcome == "unclear" || outcome == "contradicted") then
    (some "review", some "Needs Manual Review")
  else if outcome == "unverifiable" && !case_retrieved then
    (some "1", some "Fabricated Case & Citation")
  else (none, none)

/-- The fields of a parsed authority that `verify_claim_against_authority`
reads (with the `.get` defaults of the source). -/
structure ParsedAuthority where
  full_text : String
  paragraphs : List Paragraph
  url : String
  title : String
deriving Repr, DecidableEq

/-- The verification record returned by `verify_claim_against_authority`
(timestamp omitted). -/
structure VerifyResult where
  claim_text : String
  citation_text : String
  authority_url : String
  authority_title : String
  case_retrieved : Bool
  verification_outcome : String
  hallucination_type : Option String
  hallucination_type_name : Option String
  matching_paragraphs : List MatchPara
  confidence : ℚ
  method : String
  keyword_overlap : Option ℚ
  notes : String
deriving Repr, DecidableEq

/-- `verify_claim_against_authority(claim_text, citation_text,
parsed_authority, matching_threshold, resolution_status)`. -/
def verify_claim_against_authority (claim_text citation_text : String)
    (parsed_authority : ParsedAuthority) (matching_threshold : ℚ)
    (resolution_status : String) : VerifyResult :=
  let full_text := parsed_authority.full_text
  let paragraphs := parsed_authority.paragraphs
  let authority_url := parsed_authority.url
  let authority_title := parsed_authority.title
  let case_retrieved : Bool := !full_text.toList.isEmpty && decide (100 < full_text.length)
  if strContains (pyLower full_text) (pyLower claim_text) then
    let hallucination := classify_hallucination_type "supported" resolution_status case_retrieved
    { claim_text, citation_text, authority_url, authority_title, case_retrieved
      verification_outcome := "supported"
      hallucination_type := hallucination.1
      hallucination_type_name := hallucination.2
      matching_paragraphs := []
      confidence := 95/100
      method := "exact_match"
      keyword_overlap := none
      notes := "Claim text found exactly in authority" }
  else
    let overall_overlap := calculate_keyword_overlap claim_text full_text
    let matching_paras := find_matching_paragraphs claim_text paragraphs matching_threshold
    let headSim : ℚ := ((matching_paras.head?.map (fun m => m.similarity_score)).getD 0)
    let outcomeConfNotes : String × ℚ × String :=
      if (6 : ℚ)/10 ≤ overall_overlap ∨ (¬ matching_paras.isEmpty ∧ (6 : ℚ)/10 ≤ headSim) then
        ("supported", max overall_overlap (if matching_paras.isEmpty then 0 else headSim),
         "Strong keyword overlap with authority - likely supported")
      else if (3 : ℚ)/10 ≤ overall_overlap ∨ (¬ matching_paras.isEmpty ∧ (3 : ℚ)/10 ≤ headSim) then
        ("supported", max overall_overlap (if matching_paras.isEmpty then 0 else headSim),
         "Moderate keyword overlap - appears supported but review recommended")
      else
        ("needs_review", overall_overlap,
         "Case retrieved but low keyword match - manual review required")
    let outcome := outcomeConfNotes.1
    let hallucination := classify_hallucination_type outcome resolution_status case_retrieved
    { claim_text, citation_text, authority_url, authority_title, case_retrieved
      verification_outcome := outcome
      hallucination_type := hallucination.1
      hallucination_type_name := hallucination.2
      matching_paragraphs := matching_paras.take 3
      confidence := round2 outcomeConfNotes.2.1
      method := "keyword_match"
      keyword_overlap := some (round2 overall_overlap)
      notes := outcomeConfNotes.2.2 }

/-! ## scripts/extract_citations.py -/

/-- Concatenation of a sequence of regex pieces. -/
def reSeq (l : List RE) : RE := l.foldr .cat .eps

/-- `[YEAR]` with the year as capture group `i`: `\[(\d{4})\]`. -/
def reBracketYear (i : Nat) : RE :=
  reSeq [reChar '[', .grp i (reRep 4 reDigit), reChar ']']

/-- A capitalised word `[A-Z][a-z]+`. -/
def reCapWord : RE := .cat reUpper (rePlus reLower)

/-- A party in the `case_name` pattern:
`[A-Z][a-z]+(?:\s+[A-Z][a-z]+)*`. -/
def reParty : RE := .cat reCapWord (.star (.cat (rePlus reWs) reCapWord))

/-- `CITATION_PATTERNS` in dict insertion order (these patterns are
compiled without `re.IGNORECASE`). -/
def CITATION_PATTERNS : List (String × RE) :=
  [("uk_neutral_citation",
    reSeq [reBracketYear 1, rePlus reWs,
           .grp 2 (reAlts [reStr "UKSC", reStr "UKPC", reStr "UKHL", reStr "UKEAT"]),
           rePlus reWs, .grp 3 (rePlus reDigit)]),
   ("ew_neutral_citation",
    reSeq [reBracketYear 1, rePlus reWs,
           .grp 2 (reAlts [reStr "EWCA", reStr "EWHC",
                           reSeq [reStr "EW", rePlus reWs, reStr "Misc"]]),
           rePlus reWs,
           reOpt (.grp 3 (reAlts [reStr "Civ", reStr "Crim", reStr "Admin", reStr "Ch",
                                  reStr "QB", reStr "Fam", reStr "TCC", reStr "Comm",
                                  reStr "Pat", reStr "IPEC"])),
           .star reWs, .grp 4 (rePlus reDigit)]),
   ("case_name",
    reSeq [.wordB, .grp 1 reParty, rePlus reWs, reChar 'v', reOpt (reChar '.'),
           rePlus reWs, .grp 2 reParty, .wordB]),
   ("law_report",
    reSeq [reBracketYear 1, rePlus reWs, .grp 2 (rePlus reDigit), rePlus reWs,
           .grp 3 (reAlts [reStr "WLR", reStr "AC", reStr "QB", reStr "Ch",
                           reStr "Fam", reStr "All ER", reStr "EWLR"]),
           rePlus reWs, .grp 4 (rePlus reDigit)]),
   ("year_volume_report",
    reSeq [reChar '(', .grp 1 (reRep 4 reDigit), reChar ')', rePlus reWs,
           .grp 2 (rePlus reDigit), rePlus reWs,
           .grp 3 (reAlts [reStr "WLR", reStr "AC", reStr "QB", reStr "Ch",
                           reStr "Fam", reStr "All ER"]),
           rePlus reWs, .grp 4 (rePlus reDigit)])]

/-- `calculate_confidence(pattern_name, citation_text)`. -/
def calculate_confidence (pattern_name citation_text : String) : ℚ :=
  if strContains pattern_name "neutral_citation" then 95/100
  else if strContains pattern_name "law_report" || strContains pattern_name "year_volume_report" then
    90/100
  else if pattern_name == "case_name" then
    if strContains (pyLower citation_text) " v " || strContains (pyLower citation_text) " v. " then
      70/100
    else 50/100
  else 60/100

/-- A citation record emitted by `extract_citations_from_text`. -/
structure CitationRec where
  citation_id : String
  text : String
  start_pos : Nat
  end_pos : Nat
  pattern_matched : String
  confidence : ℚ
deriving Repr, DecidableEq

/-- `extract_citations_from_text(text)` with the default patterns:
all matches of every pattern, sorted by start position, with ids
reassigned sequentially after sorting. -/
def extract_citations_from_text (text : String) : List CitationRec :=
  let raw : List CitationRec := CITATION_PATTERNS.flatMap (fun p =>
    (reFindIter p.2 text).map (fun m =>
      { citation_id := ""
        text := m.str
        start_pos := m.start
        end_pos := m.start + m.str.length
        pattern_matched := p.1
        confidence := calculate_confidence p.1 m.str }))
  let sorted := pySort (fun a b => decide (a.start_pos ≤ b.start_pos)) raw
  sorted.enum.map (fun x => { x.2 with citation_id := "cit_" ++ toString (x.1 + 1) })

/-! ## scripts/utils/validation.py -/

def reAlnumHyph : RE :=
  .cls (fun c => c.isDigit || ('A' ≤ c && c ≤ 'Z') || ('a' ≤ c && c ≤ 'z') || c == '-')

/-- One domain label: `[A-Z0-9](?:[A-Z0-9-]{0,61}[A-Z0-9])?` (compiled
with `re.IGNORECASE`, so the classes match both cases). -/
def urlLabelRE : RE :=
  .cat reAlnumC (reOpt (.cat (reUpTo 61 reAlnumHyph) reAlnumC))

/-- `(?:[A-Z0-9](?:...)?\.)+[A-Z]{2,6}\.?` -/
def urlDomainRE : RE :=
  reSeq [rePlus (.cat urlLabelRE (reChar '.')),
         reRep 2 reAlpha, reUpTo 4 reAlpha, reOpt (reChar '.')]

/-- `\d{1,3}` -/
def reD13 : RE := .cat reDigit (reUpTo 2 reDigit)

/-- `\d{1,3}\.\d{1,3}\.\d{1,3}\.\d{1,3}` -/
def urlIpRE : RE :=
  reSeq [reD13, reChar '.', reD13, reChar '.', reD13, reChar '.', reD13]

/-- The full `url_pattern` of `validate_url`. -/
def urlPatternRE : RE :=
  reSeq [reStrI "http", reOpt (reCharI 's'), reStr "://",
         reAlts [urlDomainRE, reStrI "localhost", urlIpRE],
         reOpt (.cat (reChar ':') (rePlus reDigit)),
         .alt (reOpt (reChar '/'))
              (.cat (.cls (fun c => c == '/' || c == '?')) (rePlus reNonWs)),
         .eos]

/-- `validate_url(url)`: `bool(url_pattern.match(url))` (anchored at the
start of the string). -/
def validate_url (url : String) : Bool :=
  (matchHere urlPatternRE none url.toList).isSome

/-! ## scripts/fetch_url.py

`requests` and the filesystem are modelled by an explicit environment;
`env.net a` is the response the `attempt = a` call of `requests.get`
would produce, `env.sha256` models `hashlib` and `env.fileExists` the
cache-existence check. -/

inductive NetResp where
  | ok (status : Nat) (contentType : String) (body : String)
  | timeout
  | netError (msg : String)
deriving Repr, DecidableEq

structure FetchEnv where
  requestsAvailable : Bool
  net : Nat → NetResp
  fileExists : String → Bool
  sha256 : String → String

/-- `urlparse(url).hostname or ""` for the http(s) URLs handled here:
the text between `"://"` and the first `/`, `:`, `?` or `#`,
lowercased; empty when the URL has no `"://"`. -/
def urlHostname (url : String) : String :=
  let rec after : List Char → Option (List Char)
    | [] => none
    | l@(_ :: rest) =>
      if [':', '/', '/'].isPrefixOf l then some (l.drop 3) else after rest
  match after url.toList with
  | none => ""
  | some rest =>
    pyLower (rest.takeWhile (fun c => !(c == '/' || c == ':' || c == '?' || c == '#'))).asString

/-- `detect_source(url)`. -/
def detect_source (url : String) : String :=
  let hostname := pyLower (urlHostname url)
  if strContains hostname "caselaw.nationalarchives.gov.uk" then "find_case_law"
  else if strContains hostname "bailii.org" then "bailii"
  else "default"

/-- `SOURCE_RATE_LIMITS` (milliseconds). -/
def SOURCE_RATE_LIMITS : List (String × ℚ) :=
  [("find_case_law", 1000), ("bailii", 1000), ("default", 1000)]

/-- Global mutable state of the fetcher plus the logs our model keeps:
every issued request URL and every `time.sleep` duration (seconds). -/
structure World where
  lastFetchBySource : List (String × ℚ)
  clock : ℚ
  requestLog : List String
  sleepLog : List ℚ
deriving Repr

def assocSet (m : List (String × ℚ)) (k : String) (v : ℚ) : List (String × ℚ) :=
  if m.any (fun x => x.1 == k) then
    m.map (fun x => if x.1 == k then (k, v) else x)
  else m ++ [(k, v)]

/-- `rate_limit_wait(url, rate_limit_ms)`; the model clock advances
only by the `time.sleep` calls. -/
def rate_limit_wait (world : World) (url : String) (rate_limit_ms : Option ℚ) : World :=
  let source := detect_source url
  let limit := rate_limit_ms.getD
    (((SOURCE_RATE_LIMITS.find? (fun x => x.1 == source)).map (fun x => x.2)).getD 1000)
  let world' :=
    match (world.lastFetchBySource.find? (fun x => x.1 == source)).map (fun x => x.2) with
    | none => world
    | some last =>
      let elapsed_ms := (world.clock - last) * 1000
      if elapsed_ms < limit then
        let sleep_s := (limit - elapsed_ms) / 1000
        { world with clock := world.clock + sleep_s, sleepLog := world.sleepLog ++ [sleep_s] }
      else world
  { world' with lastFetchBySource := assocSet world'.lastFetchBySource source world'.clock }

/-- Result of the retry loop of `fetch_and_cache_url`
(lines 144-212 of the source). -/
inductive LoopRes where
  | notFound
  | httpError (status : Nat)
  | timedOut
  | netFailed (msg : String)
  | okResp (status : Nat) (contentType : String) (body : String)
deriving Repr, DecidableEq

/-- Iteration `attempt = a` of the retry loop
(`max_retries = 3`, `retry_delay = 1.0`).  Returns the loop result, the
list of attempt indices on which a request was issued, and the list of
`time.sleep` durations (seconds) between attempts.  The fuel makes the
recursion structural; it is `3 - a` at every call (the loop re-enters
only while `a < 3 - 1`), so the fuel-exhausted branch is dead code. -/
def fetchGoAux (env : FetchEnv) : Nat → Nat → LoopRes × List Nat × List ℚ
  | 0, _ => (.timedOut, [], [])
  | fuel + 1, a =>
    match env.net a with
    | .ok st ct body =>
      if st = 200 then (.okResp st ct body, [a], [])
      else if st = 404 then (.notFound, [a], [])
      else if st = 429 then
        if a < 3 - 1 then
          let r := fetchGoAux env fuel (a + 1)
          (r.1, a :: r.2.1, (1 * 2 ^ a : ℚ) :: r.2.2)
        else (.httpError 429, [a], [])
      else (.httpError st, [a], [])
    | .timeout =>
      if a < 3 - 1 then
        let r := fetchGoAux env fuel (a + 1)
        (r.1, a :: r.2.1, (1 : ℚ) :: r.2.2)
      else (.timedOut, [a], [])
    | .netError m =>
      if a < 3 - 1 then
        let r := fetchGoAux env fuel (a + 1)
        (r.1, a :: r.2.1, (1 : ℚ) :: r.2.2)
      else (.netFailed m, [a], [])

/-- The retry loop entered at `attempt = a`. -/
def fetchGo (env : FetchEnv) (a : Nat) : LoopRes × List Nat × List ℚ :=
  fetchGoAux env (3 - a) a

/-- Exceptions `fetch_and_cache_url` raises before reaching the network. -/
inductive PyExc where
  | importError (msg : String)
  | valueError (msg : String)
deriving Repr, DecidableEq

/-- The result dict of `fetch_and_cache_url` (timestamps and response
metadata omitted; only the fields the claims concern). -/
structure FetchRecord where
  url : String
  status_code : Nat
  fetch_status : String
  error : Option String
  content_hash : Option String
  cache_path : Option String
deriving Repr, DecidableEq

/-- `fetch_and_cache_url(job_id, url, rate_limit_ms, ...)`. -/
def fetch_and_cache_url (env : FetchEnv) (job_id url : String)
    (rate_limit_ms : Option ℚ) (force_refetch : Bool) (world : World) :
    Except PyExc FetchRecord × World :=
  if !env.requestsAvailable then
    (.error (.importError "requests library not installed. Install with: pip install requests"), world)
  else if !validate_url url then
    (.error (.valueError ("Invalid URL: " ++ url)), world)
  else
    let world₁ := rate_limit_wait world url rate_limit_ms
    let r := fetchGo env 0
    let world₂ :=
      { world₁ with
        requestLog := world₁.requestLog ++ r.2.1.map (fun _ => url)
        sleepLog := world₁.sleepLog ++ r.2.2
        clock := world₁.clock + (r.2.2.foldl (· + ·) 0) }
    match r.1 with
    | .notFound =>
      (.ok { url, status_code := 404, fetch_status := "not_found",
             error := some "404 Not Found", content_hash := none, cache_path := none }, world₂)
    | .httpError st =>
      (.ok { url, status_code := st, fetch_status := "error",
             error := some ("HTTP " ++ toString st), content_hash := none, cache_path := none }, world₂)
    | .timedOut =>
      (.ok { url, status_code := 0, fetch_status := "timeout",
             error := some "Request timeout", content_hash := none, cache_path := none }, world₂)
    | .netFailed m =>
      (.ok { url, status_code := 0, fetch_status := "error",
             error := some m, content_hash := none, cache_path := none }, world₂)
    | .okResp st ct body =>
      let content_hash := env.sha256 body
      let ext :=
        if strContains ct "html" then ".html"
        else if strContains ct "json" then ".json"
        else if strContains ct "xml" then ".xml"
        else ".html"
      let cache_path := "sources/" ++ job_id ++ "/" ++ (content_hash ++ ext)
      if env.fileExists cache_path && !force_refetch then
        (.ok { url, status_code := st, fetch_status := "cached",
               error := none, content_hash := some content_hash,
               cache_path := some cache_path }, world₂)
      else
        (.ok { url, status_code := st, fetch_status := "success",
               error := none, content_hash := some content_hash,
               cache_path := some cache_path }, world₂)

/-- Modelled from the spec: the domain allow-list the specification
requires the fetcher to enforce — "two legal-database domains, plus
their `www.` variants" (the primary archive
`caselaw.nationalarchives.gov.uk` and the secondary archive
`bailii.org`).  No such list exists in the fetcher's source; this
definition only serves to state the spec's claim. -/
def specAllowList : List String :=
  ["caselaw.nationalarchives.gov.uk", "www.caselaw.nationalarchives.gov.uk",
   "bailii.org", "www.bailii.org"]

/-! ## scripts/parse_authority.py

The XML tree produced by `xml.etree.ElementTree` is modelled by
`XElem`; tags are identified by their local name (namespace prefixes of
the `ElementTree` queries are resolved away in the model).
`parse_fcl_xml` takes the outcome of `ET.fromstring` — `.error e` when
the parser raises `ParseError e` — as input. -/

inductive XElem where
  | node (tag : String) (attrs : List (String × String)) (text : Option String)
      (children : List XElem) (tail : Option String)

def XElem.tag : XElem → String
  | .node t _ _ _ _ => t

def XElem.attrs : XElem → List (String × String)
  | .node _ a _ _ _ => a

def XElem.text : XElem → Option String
  | .node _ _ t _ _ => t

def XElem.children : XElem → List XElem
  | .node _ _ _ c _ => c

def XElem.tail : XElem → Option String
  | .node _ _ _ _ t => t

/-- `element.get(name)`. -/
def XElem.attr (e : XElem) (name : String) : Option String :=
  ((e.attrs.find? (fun x => x.1 == name)).map (fun x => x.2))

mutual

/-- `extract_text_recursive(element)`. -/
def extract_text_recursive : XElem → String
  | .node _ _ text children _ =>
    let headPart : List String :=
      match text with
      | some t => if t.toList.isEmpty then [] else [pyStrip t]
      | none => []
    let parts := headPart ++ childTextParts children
    String.intercalate " " (parts.filter (fun s => !s.toList.isEmpty))

/-- Text pieces contributed by a child list: each child's recursive
text followed by its (stripped) tail when truthy. -/
def childTextParts : List XElem → List String
  | [] => []
  | c :: rest =>
    ([extract_text_recursive c] ++
      (match c.tail with
       | some t => if t.toList.isEmpty then [] else [pyStrip t]
       | none => [])) ++ childTextParts rest

end

/-- All proper descendants of an element in document order
(what `element.findall(".//tag")` iterates over before tag filtering). -/
def XElem.descendants : XElem → List XElem
  | .node _ _ _ children _ => descList children
where
  descList : List XElem → List XElem
  | [] => []
  | c :: rest => c :: c.descendants ++ descList rest

/-- `element.findall(".//tag")` with the namespace prefix resolved to
the local tag name. -/
def findallDesc (e : XElem) (tag : String) : List XElem :=
  e.descendants.filter (fun d => d.tag == tag)

/-- `element.find(".//tag")`. -/
def findDesc (e : XElem) (tag : String) : Option XElem :=
  (findallDesc e tag).head?

/-- A paragraph record of `parse_fcl_xml`. -/
structure FclPara where
  para_num : String
  para_id : Option String
  text : String
  speaker : Option String
deriving Repr, DecidableEq

/-- The dict returned by `parse_fcl_xml` (keys absent from the
error-branch dict are `none`). -/
structure ParsedFcl where
  title : Option String
  case_name : Option String
  neutral_citation : Option String
  court : Option String
  date : Option String
  paragraphs : List FclPara
  full_text : String
  parse_method : String
  warnings : List String
deriving Repr, DecidableEq

/-- `re.search(r'(\d+)', s)` returning group 1. -/
def firstIntSub (s : String) : Option String :=
  (reSearch (.grp 1 (rePlus reDigit)) s).map (fun m => capGet m.caps 1)

/-- `parse_fcl_xml(xml_content)`; the argument is the outcome of
`ET.fromstring(xml_content)`. -/
def parse_fcl_xml (parsed : Except String XElem) : ParsedFcl :=
  match parsed with
  | .error e =>
    { title := some "Unknown", case_name := none, neutral_citation := none,
      court := none, date := none, paragraphs := [], full_text := "",
      parse_method := "fcl_xml", warnings := ["XML parse error: " ++ e] }
  | .ok root =>
    let metaE := findDesc root "meta"
    let title₀ : Option String :=
      match metaE with
      | none => none
      | some m =>
        match findDesc m "FRBRname" with
        | some docTitle => if truthyS (docTitle.attr "value") then docTitle.attr "value" else none
        | none => none
    let neutral_citation : Option String :=
      match metaE with
      | none => none
      | some m =>
        match findDesc m "FRBRnumber" with
        | some c => if truthyS (c.attr "value") then c.attr "value" else none
        | none => none
    let date : Option String :=
      match metaE with
      | none => none
      | some m =>
        match findDesc m "FRBRdate" with
        | some d => if truthyS (d.attr "date") then d.attr "date" else none
        | none => none
    let court : Option String :=
      match metaE with
      | none => none
      | some m =>
        match findDesc m "FRBRauthor" with
        | some c => if truthyS (c.attr "as") then c.attr "as" else none
        | none => none
    let title : Option String :=
      if !truthyS title₀ then
        match findDesc root "docTitle" with
        | some nameElem => some (extract_text_recursive nameElem)
        | none => title₀
      else title₀
    let case_name := title
    let judgment : Option XElem :=
      match findDesc root "judgment" with
      | some j => some j
      | none => findDesc root "body"
    let parasAndText : List FclPara × Option String :=
      match judgment with
      | none => ([], none)
      | some j =>
        let step : List FclPara × Nat → XElem → List FclPara × Nat := fun acc para =>
          let para_id := para.attr "eId"
          let para_text := extract_text_recursive para
          if para_text.toList.isEmpty then acc
          else
            let para_num₀ : Option String :=
              match para_id with
              | some pid =>
                if pid.toList.isEmpty then none
                else
                  match firstIntSub pid with
                  | some n => some n
                  | none => some pid
              | none => none
            let para_num :=
              if truthyS para_num₀ then para_num₀.getD "" else toString acc.2
            (acc.1 ++ [{ para_num, para_id, text := para_text, speaker := none }], acc.2 + 1)
        let res := (findallDesc j "paragraph").foldl step ([], 1)
        (res.1, some (extract_text_recursive j))
    let full_text : String :=
      match parasAndText.2 with
      | some t => if t.toList.isEmpty then extract_text_recursive root else t
      | none => extract_text_recursive root
    { title, case_name, neutral_citation, court, date,
      paragraphs := parasAndText.1, full_text,
      parse_method := "fcl_xml", warnings := [] }

/-! ## scripts/public_resolve.py -/

/-- Neutral pattern `\[(\d{4})\]\s+COURT\s+(\d+)` (searched with
`re.IGNORECASE`). -/
def nPat (court : String) : RE :=
  reSeq [reBracketYear 1, rePlus reWs, reStrI court, rePlus reWs, .grp 2 (rePlus reDigit)]

/-- Neutral pattern whose court is two `\s+`-separated words:
`\[(\d{4})\]\s+W1\s+W2\s+(\d+)`. -/
def nPat2 (w1 w2 : String) : RE :=
  reSeq [reBracketYear 1, rePlus reWs, reStrI w1, rePlus reWs, reStrI w2,
         rePlus reWs, .grp 2 (rePlus reDigit)]

/-- Neutral pattern with a division:
`\[(\d{4})\]\s+COURT\s+(\d+)\s+\(DIV\)`. -/
def nPatDiv (court div : String) : RE :=
  reSeq [reBracketYear 1, rePlus reWs, reStrI court, rePlus reWs,
         .grp 2 (rePlus reDigit), rePlus reWs, reChar '(', reStrI div, reChar ')']

/-- One entry of a neutral-citation pattern table: key, regex and the
URL template (modelled as the function `.format` applies). -/
structure NPat where
  name : String
  re : RE
  mkUrl : String → String → String

/-- `BAILII_NEUTRAL_PATTERNS`, in dict insertion order. -/
def BAILII_NEUTRAL_PATTERNS : List NPat :=
  [⟨"uksc", nPat "UKSC", fun y n => "https://www.bailii.org/uk/cases/UKSC/" ++ y ++ "/" ++ n ++ ".html"⟩,
   ⟨"ukpc", nPat "UKPC", fun y n => "https://www.bailii.org/uk/cases/UKPC/" ++ y ++ "/" ++ n ++ ".html"⟩,
   ⟨"ukhl", nPat "UKHL", fun y n => "https://www.bailii.org/uk/cases/UKHL/" ++ y ++ "/" ++ n ++ ".html"⟩,
   ⟨"ewca_civ", nPat2 "EWCA" "Civ", fun y n => "https://www.bailii.org/ew/cases/EWCA/Civ/" ++ y ++ "/" ++ n ++ ".html"⟩,
   ⟨"ewca_crim", nPat2 "EWCA" "Crim", fun y n => "https://www.bailii.org/ew/cases/EWCA/Crim/" ++ y ++ "/" ++ n ++ ".html"⟩,
   ⟨"ewhc_admin", nPatDiv "EWHC" "Admin", fun y n => "https://www.bailii.org/ew/cases/EWHC/Admin/" ++ y ++ "/" ++ n ++ ".html"⟩,
   ⟨"ewhc_ch", nPatDiv "EWHC" "Ch", fun y n => "https://www.bailii.org/ew/cases/EWHC/Ch/" ++ y ++ "/" ++ n ++ ".html"⟩,
   ⟨"ewhc_qb", nPatDiv "EWHC" "QB", fun y n => "https://www.bailii.org/ew/cases/EWHC/QB/" ++ y ++ "/" ++ n ++ ".html"⟩,
   ⟨"ewhc_kb", nPatDiv "EWHC" "KB", fun y n => "https://www.bailii.org/ew/cases/EWHC/KB/" ++ y ++ "/" ++ n ++ ".html"⟩,
   ⟨"ewhc_fam", nPatDiv "EWHC" "Fam", fun y n => "https://www.bailii.org/ew/cases/EWHC/Fam/" ++ y ++ "/" ++ n ++ ".html"⟩,
   ⟨"ewhc_tcc", nPatDiv "EWHC" "TCC", fun y n => "https://www.bailii.org/ew/cases/EWHC/TCC/" ++ y ++ "/" ++ n ++ ".html"⟩,
   ⟨"ewhc_comm", nPatDiv "EWHC" "Comm", fun y n => "https://www.bailii.org/ew/cases/EWHC/Comm/" ++ y ++ "/" ++ n ++ ".html"⟩,
   ⟨"ewhc_pat", nPatDiv "EWHC" "Pat", fun y n => "https://www.bailii.org/ew/cases/EWHC/Patents/" ++ y ++ "/" ++ n ++ ".html"⟩,
   ⟨"ukut_iac", nPatDiv "UKUT" "IAC", fun y n => "https://www.bailii.org/uk/cases/UKUT/IAC/" ++ y ++ "/" ++ n ++ ".html"⟩,
   ⟨"ukut_lc", nPatDiv "UKUT" "LC", fun y n => "https://www.bailii.org/uk/cases/UKUT/LC/" ++ y ++ "/" ++ n ++ ".html"⟩,
   ⟨"ukftt_tc", nPatDiv "UKFTT" "TC", fun y n => "https://www.bailii.org/uk/cases/UKFTT/TC/" ++ y ++ "/" ++ n ++ ".html"⟩,
   ⟨"eat", nPat "EAT", fun y n => "https://www.bailii.org/uk/cases/UKEAT/" ++ y ++ "/" ++ n ++ ".html"⟩]

/-- `FCL_NEUTRAL_PATTERNS`, in dict insertion order. -/
def FCL_NEUTRAL_PATTERNS : List NPat :=
  [⟨"uksc", nPat "UKSC", fun y n => "https://caselaw.nationalarchives.gov.uk/uksc/" ++ y ++ "/" ++ n ++ "/data.xml"⟩,
   ⟨"ukpc", nPat "UKPC", fun y n => "https://caselaw.nationalarchives.gov.uk/ukpc/" ++ y ++ "/" ++ n ++ "/data.xml"⟩,
   ⟨"ukhl", nPat "UKHL", fun y n => "https://caselaw.nationalarchives.gov.uk/ukhl/" ++ y ++ "/" ++ n ++ "/data.xml"⟩,
   ⟨"ewca_civ", nPat2 "EWCA" "Civ", fun y n => "https://caselaw.nationalarchives.gov.uk/ewca/civ/" ++ y ++ "/" ++ n ++ "/data.xml"⟩,
   ⟨"ewca_crim", nPat2 "EWCA" "Crim", fun y n => "https://caselaw.nationalarchives.gov.uk/ewca/crim/" ++ y ++ "/" ++ n ++ "/data.xml"⟩,
   ⟨"ewhc_admin", nPatDiv "EWHC" "Admin", fun y n => "https://caselaw.nationalarchives.gov.uk/ewhc/admin/" ++ y ++ "/" ++ n ++ "/data.xml"⟩,
   ⟨"ewhc_ch", nPatDiv "EWHC" "Ch", fun y n => "https://caselaw.nationalarchives.gov.uk/ewhc/ch/" ++ y ++ "/" ++ n ++ "/data.xml"⟩,
   ⟨"ewhc_qb", nPatDiv "EWHC" "QB", fun y n => "https://caselaw.nationalarchives.gov.uk/ewhc/qb/" ++ y ++ "/" ++ n ++ "/data.xml"⟩,
   ⟨"ewhc_kb", nPatDiv "EWHC" "KB", fun y n => "https://caselaw.nationalarchives.gov.uk/ewhc/kb/" ++ y ++ "/" ++ n ++ "/data.xml"⟩,
   ⟨"ewhc_fam", nPatDiv "EWHC" "Fam", fun y n => "https://caselaw.nationalarchives.gov.uk/ewhc/fam/" ++ y ++ "/" ++ n ++ "/data.xml"⟩,
   ⟨"ewhc_tcc", nPatDiv "EWHC" "TCC", fun y n => "https://caselaw.nationalarchives.gov.uk/ewhc/tcc/" ++ y ++ "/" ++ n ++ "/data.xml"⟩,
   ⟨"ewhc_comm", nPatDiv "EWHC" "Comm", fun y n => "https://caselaw.nationalarchives.gov.uk/ewhc/comm/" ++ y ++ "/" ++ n ++ "/data.xml"⟩,
   ⟨"ewhc_pat", nPatDiv "EWHC" "Pat", fun y n => "https://caselaw.nationalarchives.gov.uk/ewhc/pat/" ++ y ++ "/" ++ n ++ "/data.xml"⟩,
   ⟨"ukut_iac", nPatDiv "UKUT" "IAC", fun y n => "https://caselaw.nationalarchives.gov.uk/ukut/iac/" ++ y ++ "/" ++ n ++ "/data.xml"⟩,
   ⟨"ukut_lc", nPatDiv "UKUT" "LC", fun y n => "https://caselaw.nationalarchives.gov.uk/ukut/lc/" ++ y ++ "/" ++ n ++ "/data.xml"⟩,
   ⟨"ukut_tcc", nPatDiv "UKUT" "TCC", fun y n => "https://caselaw.nationalarchives.gov.uk/ukut/tcc/" ++ y ++ "/" ++ n ++ "/data.xml"⟩,
   ⟨"ukftt_tc", nPatDiv "UKFTT" "TC", fun y n => "https://caselaw.nationalarchives.gov.uk/ukftt/tc/" ++ y ++ "/" ++ n ++ "/data.xml"⟩,
   ⟨"ukftt_grc", nPatDiv "UKFTT" "GRC", fun y n => "https://caselaw.nationalarchives.gov.uk/ukftt/grc/" ++ y ++ "/" ++ n ++ "/data.xml"⟩,
   ⟨"eat", nPat "EAT", fun y n => "https://caselaw.nationalarchives.gov.uk/eat/" ++ y ++ "/" ++ n ++ "/data.xml"⟩]

/-- A candidate-URL dict; keys a given code path does not set are
`none`. -/
structure Candidate where
  url : String
  source : String
  confidence : ℚ
  resolution_method : Option String
  pattern_name : Option String
  year : Option String
  number : Option String
  title : Option String
  uri : Option String
deriving Repr, DecidableEq

/-- First table entry whose pattern matches, with groups 1 and 2. -/
def firstNeutral : List NPat → String → Option (NPat × String × String)
  | [], _ => none
  | p :: rest, text =>
    match reSearch p.re text with
    | some m => some (p, capGet m.caps 1, capGet m.caps 2)
    | none => firstNeutral rest text

/-- `try_bailii_neutral_citation_patterns(citation_text)`. -/
def try_bailii_neutral_citation_patterns (citation_text : String) : Option Candidate :=
  (firstNeutral BAILII_NEUTRAL_PATTERNS citation_text).map (fun x =>
    { url := x.1.mkUrl x.2.1 x.2.2, source := "bailii", confidence := 95/100,
      resolution_method := some "bailii_neutral_citation_direct",
      pattern_name := some x.1.name, year := some x.2.1, number := some x.2.2,
      title := none, uri := none })

/-- `try_fcl_neutral_citation_patterns(citation_text)`. -/
def try_fcl_neutral_citation_patterns (citation_text : String) : Option Candidate :=
  (firstNeutral FCL_NEUTRAL_PATTERNS citation_text).map (fun x =>
    { url := x.1.mkUrl x.2.1 x.2.2, source := "find_case_law", confidence := 90/100,
      resolution_method := some "fcl_neutral_citation_direct",
      pattern_name := some x.1.name, year := some x.2.1, number := some x.2.2,
      title := none, uri := none })

/-- `try_neutral_citation_patterns(citation_text)`: BAILII first, FCL
as fallback. -/
def try_neutral_citation_patterns (citation_text : String) : Option Candidate :=
  match try_bailii_neutral_citation_patterns citation_text with
  | some c => some c
  | none =>
    match try_fcl_neutral_citation_patterns citation_text with
    | some c => some c
    | none => none

/-- `\s*` then a reporter body then `\s+(\d+)`: helper for the
traditional-report patterns `\[(\d{4})\]\s*(\d*)\s*BODY\s+(\d+)`. -/
def tradPat (body : RE) : RE :=
  reSeq [reBracketYear 1, .star reWs, .grp 2 (.star reDigit), .star reWs, body,
         rePlus reWs, .grp 3 (rePlus reDigit)]

/-- `TRADITIONAL_REPORT_PATTERNS` (searched with `re.IGNORECASE`). -/
def TRADITIONAL_REPORT_PATTERNS : List RE :=
  [tradPat (reStrI "AC"),
   tradPat (reAlts [reStrI "QB", reStrI "KB"]),
   tradPat (reStrI "Ch"),
   tradPat (reStrI "WLR"),
   tradPat (reSeq [reStrI "All", .star reWs, reStrI "ER"]),
   tradPat (reStrI "Fam"),
   tradPat (reStrI "ICR"),
   tradPat (reStrI "IRLR"),
   tradPat (reStrI "BCLC"),
   tradPat (reSeq [reStrI "Cr", .star reWs, reStrI "App", .star reWs, reStrI "R"]),
   tradPat (reSeq [reStrI "Lloyd's", .star reWs, reStrI "Rep"]),
   tradPat (reSeq [reStrI "P", .star reWs, reChar '&', .star reWs, reStrI "CR"])]

/-- `is_traditional_citation(citation_text)`. -/
def is_traditional_citation (citation_text : String) : Bool :=
  TRADITIONAL_REPORT_PATTERNS.any (fun p => (reSearch p citation_text).isSome)

/-- ASCII letter (what `[A-Z]` matches under `re.IGNORECASE`). -/
def isAsciiLetter (c : Char) : Bool := ('A' ≤ c && c ≤ 'Z') || ('a' ≤ c && c ≤ 'z')

/-- `[A-Za-z'\-\.]` -/
def nameCharP1 : RE := .cls (fun c => isAsciiLetter c || c == '\'' || c == '-' || c == '.')

/-- `[A-Z][A-Za-z'\-\.]+` under `re.IGNORECASE`. -/
def wordP1 : RE := .cat (.cls isAsciiLetter) (rePlus nameCharP1)

/-- `CASE_NAME_PATTERNS` (searched with `re.IGNORECASE`). -/
def CASE_NAME_PATTERNS : List RE :=
  [reSeq [.grp 1 (.cat wordP1 (.star (reSeq [rePlus reWs, .alt (reStrI "and") (reChar '&'),
                                             rePlus reWs, wordP1]))),
          rePlus reWs, reCharI 'v', reOpt (reChar '.'), rePlus reWs,
          .grp 2 (reSeq [wordP1,
                         reOpt (.cat (rePlus reWs)
                           (reAlts [reStrI "plc", reStrI "Ltd", reStrI "Co", reStrI "PLC",
                                    reStrI "LTD", reStrI "Council", reStrI "Authority",
                                    reStrI "NHS", reStrI "Trust", reStrI "Board",
                                    reStrI "Committee",
                                    .cat (reStrI "Commissioner") (reOpt (reCharI 's')),
                                    reSeq [reStrI "Secretary", rePlus reWs, reStrI "of",
                                           rePlus reWs, reStrI "State"]])),
                         reOpt (reSeq [rePlus reWs, .alt (reStrI "for") (reStrI "of"),
                                       rePlus reWs,
                                       rePlus (.cls (fun c => isAsciiLetter c || c == '\'' ||
                                                              c == '-' || isPySpace c))])])],
   reSeq [reAlts [reSeq [reStrI "In", rePlus reWs, reStrI "re"], reStrI "Re",
                  reSeq [reStrI "Ex", rePlus reWs, reStrI "parte"]],
          rePlus reWs,
          .grp 1 (.cat (.cls isAsciiLetter)
                       (rePlusL (.cls (fun c => isAsciiLetter c || c == '\'' ||
                                                c == '-' || isPySpace c)))),
          .look (.cat (.star reWs) (reChar '['))],
   reSeq [reStrI "The", rePlus reWs,
          .grp 1 (.cat (.cls isAsciiLetter)
                       (rePlus (.cls (fun c => isAsciiLetter c || c == '\'' || c == '-')))),
          reOpt (reSeq [rePlus reWs, reChar '(', reStrI "No", reOpt (reChar '.'),
                        .star reWs, rePlus reDigit, reChar ')']),
          .look (.cat (.star reWs) (reChar '['))]]

/-- `re.sub(r'\s+', ' ', s)`: each maximal whitespace run becomes a
single space (`inRun` records whether the previous character was part
of a whitespace run). -/
def collapseWsGo : Bool → List Char → List Char
  | _, [] => []
  | inRun, c :: rest =>
    if isPySpace c then
      if inRun then collapseWsGo true rest else ' ' :: collapseWsGo true rest
    else c :: collapseWsGo false rest

def collapseWs (s : String) : String := (collapseWsGo false s.toList).asString

/-- `extract_case_name(text)`. -/
def extract_case_name (text : String) : Option String :=
  (CASE_NAME_PATTERNS.firstM (fun p => reSearch p text)).map
    (fun m => collapseWs (pyStrip m.str))

/-- `extract_citation_year(citation_text)`. -/
def extract_citation_year (citation_text : String) : Option String :=
  (reSearch (reBracketYear 1) citation_text).map (fun m => capGet m.caps 1)

/-- Stop words of `normalize_case_name_for_search`. -/
def normStopWords : List String :=
  ["the", "a", "an", "and", "or", "of", "in", "on", "at", "to", "for",
   "v", "vs", "re", "ex", "parte",
   "plc", "ltd", "limited", "inc", "incorporated", "co", "corp", "corporation",
   "council", "authority", "board", "committee", "commission", "commissioners",
   "hospital", "trust", "nhs", "ha", "health",
   "ministry", "secretary", "state", "government",
   "no", "number"]

/-- `re.findall(r"[A-Za-z][A-Za-z']+", s)`. -/
def apostropheWordRE : RE :=
  .cat (.cls isAsciiLetter) (rePlus (.cls (fun c => isAsciiLetter c || c == '\'')))

/-- `normalize_case_name_for_search(case_name)`. -/
def normalize_case_name_for_search (case_name : String) : List String :=
  if case_name.toList.isEmpty then []
  else
    let words := (reFindIter apostropheWordRE case_name).map (fun m => m.str)
    (words.filter (fun w => !normStopWords.contains (pyLower w) && 3 ≤ w.length)).map pyLower

/-- `str.capitalize()`. -/
def pyCapitalize (s : String) : String :=
  match s.toList with
  | [] => ""
  | c :: rest => (c.toUpper :: rest.map Char.toLower).asString

/-- Environment modelling `requests`, `bs4` and `ElementTree` for the
resolver: `post url data = some (status, text, final_url)` (`none` =
exception), `get url params = some (status, body)`, `head url = some
status`, `htmlTitle body` = text of `soup.find('title')`, `htmlLinks
body` = the `(href, text)` pairs of `soup.find_all('a', href=True)`,
`atomParse body` = result of `ET.fromstring(body)`. -/
structure ResolveEnv where
  requestsAvailable : Bool
  bs4Available : Bool
  post : String → List (String × String) → Option (Nat × String × String)
  get : String → List (String × String) → Option (Nat × String)
  head : String → Option Nat
  htmlTitle : String → Option String
  htmlLinks : String → List (String × String)
  atomParse : String → Option XElem

/-- `\[\d{4}\]\s*\d*\s*[A-Za-z][A-Za-z\s]*\d+` (no flags). -/
def cleanCiteRE : RE :=
  reSeq [reChar '[', reRep 4 reDigit, reChar ']', .star reWs, .star reDigit, .star reWs,
         .cls isAsciiLetter, .star (.cls (fun c => isAsciiLetter c || isPySpace c)),
         rePlus reDigit]

/-- `try_bailii_citation_finder(citation_text, timeout)`. -/
def try_bailii_citation_finder (env : ResolveEnv) (citation_text : Option String) :
    Option Candidate :=
  if !env.requestsAvailable || !truthyS citation_text then none
  else
    let ct := citation_text.getD ""
    let clean_citation :=
      match reSearch cleanCiteRE ct with
      | some m => m.str
      | none => ct
    match env.post "https://www.bailii.org/cgi-bin/find_by_citation.cgi"
            [("citation", clean_citation)] with
    | none => none
    | some (status, text, finalUrl) =>
      if status ≠ 200 then none
      else if env.bs4Available then
        match env.htmlTitle text with
        | some t =>
          let title := pyStrip t
          if strContains title "Find by citation" then none
          else some { url := finalUrl, source := "bailii", confidence := 95/100,
                      resolution_method := some "bailii_citation_finder",
                      pattern_name := none, year := none, number := none,
                      title := some title, uri := none }
        | none => none
      else none

/-- `\b([A-Z][a-z]+)\b` (no flags). -/
def capWordBoundRE : RE := reSeq [.wordB, .grp 1 reCapWord, .wordB]

/-- Stop list of `try_bailii_direct_url`. -/
def directStopWords : List String :=
  ["the", "and", "plc", "ltd", "limited", "committee", "hospital", "management"]

/-- Courts to probe, from the detected law report and the year:
the `courts_to_try` computation of `try_bailii_direct_url`. -/
def courtsToTry (detected_report : Option String) (year_int : Nat) :
    List (String × String) :=
  if detected_report == some "AC" then
    if 2009 ≤ year_int then [("UKSC", "uk"), ("UKHL", "uk")] else [("UKHL", "uk")]
  else if detected_report == some "QB" then
    [("EWHC/QB", "ew"), ("EWHC/Admin", "ew"), ("EWCA/Civ", "ew")]
  else if detected_report == some "CH" then
    [("EWHC/Ch", "ew"), ("EWCA/Civ", "ew")]
  else if detected_report == some "FAM" then
    [("EWHC/Fam", "ew"), ("EWCA/Civ", "ew")]
  else if detected_report == some "WLR" then
    if 2009 ≤ year_int then [("UKSC", "uk"), ("EWCA/Civ", "ew"), ("EWHC/QB", "ew")]
    else [("UKHL", "uk"), ("EWCA/Civ", "ew"), ("EWHC/QB", "ew")]
  else
    if 2009 ≤ year_int then [("UKSC", "uk"), ("EWCA/Civ", "ew"), ("EWHC/QB", "ew")]
    else [("UKHL", "uk"), ("EWCA/Civ", "ew"), ("EWHC/QB", "ew")]

/-- Probe one candidate case URL (the body of the inner loop of
`try_bailii_direct_url`). -/
def probeOne (env : ResolveEnv) (search_terms : List String)
    (case_name : Option String) (court jurisdiction year : String) (case_num : Nat) :
    Option Candidate :=
  let url := "https://www.bailii.org/" ++ jurisdiction ++ "/cases/" ++ court ++ "/" ++ year ++
    "/" ++ toString case_num ++ ".html"
  match env.head url with
  | none => none
  | some st =>
    if st = 200 then
      match env.get url [] with
      | none => none
      | some (st2, text) =>
        if st2 = 200 then
          let content_lower := pyLower text
          let matchCount := (search_terms.filter (fun term => strContains content_lower term)).length
          let required := if 1 < search_terms.length then min 2 search_terms.length else 1
          if required ≤ matchCount then
            let title₀ :=
              if truthyS case_name then case_name.getD ""
              else "BAILII " ++ court ++ " " ++ year ++ "/" ++ toString case_num
            let title :=
              if env.bs4Available then
                match env.htmlTitle text with
                | some t => pyStrip t
                | none => title₀
              else title₀
            some { url, source := "bailii", confidence := 85/100,
                   resolution_method := none, pattern_name := none,
                   year := none, number := none, title := some title, uri := none }
          else none
        else none
    else none

/-- `try_bailii_direct_url(case_name, year, timeout, citation_text)`. -/
def try_bailii_direct_url (env : ResolveEnv) (case_name : Option String)
    (year : Option String) (citation_text : Option String) : Option Candidate :=
  if !env.requestsAvailable || !truthyS year then none
  else
    let y := year.getD ""
    let year_int := (digitsToNat y).getD 0
    let detected_report : Option String :=
      if truthyS citation_text then
        let cu := pyUpper (citation_text.getD "")
        if strContains cu " AC " then some "AC"
        else if strContains cu " QB " || strContains cu " KB " then some "QB"
        else if strContains cu " WLR " then some "WLR"
        else if strContains cu " CH " then some "CH"
        else if strContains cu " FAM " then some "FAM"
        else none
      else none
    let search_terms : List String :=
      if truthyS case_name then
        ((reFindIter capWordBoundRE (case_name.getD "")).map (fun m => m.str)).filterMap
          (fun w => if directStopWords.contains (pyLower w) then none else some (pyLower w))
      else []
    let probeCourt : String × String → Option Candidate := fun cj =>
      ((List.range' 1 19).firstM (fun num =>
        probeOne env search_terms case_name cj.1 cj.2 y num))
    ((courtsToTry detected_report year_int).take 3).firstM probeCourt

/-- Accumulate case-page links from the BAILII search-result page
(strategy 2 of `search_bailii`); stops once five results are kept. -/
def collectBailiiLinks (year : Option String) :
    List (String × String) → List Candidate → List Candidate
  | [], acc => acc
  | (href, ltext) :: rest, acc =>
    let t := pyStrip ltext
    if strContains href "/cases/" && strEnds href ".html" then
      let full_url? : Option String :=
        if strStarts href "/" then some ("https://www.bailii.org" ++ href)
        else if strStarts href "http" then some href
        else none
      match full_url? with
      | none => collectBailiiLinks year rest acc
      | some full_url =>
        if truthyS year && !strContains href (year.getD "") && !strContains t (year.getD "") then
          collectBailiiLinks year rest acc
        else if t.length < 5 ||
            (pyLower t == "next" || pyLower t == "previous" || pyLower t == "back" ||
             pyLower t == "home") then
          collectBailiiLinks year rest acc
        else
          let acc' := acc ++ [{ url := full_url, source := "bailii", confidence := 75/100,
                                resolution_method := none, pattern_name := none,
                                year := none, number := none, title := some t, uri := none }]
          if 5 ≤ acc'.length then acc' else collectBailiiLinks year rest acc'
    else collectBailiiLinks year rest acc

/-- `search_bailii(query, year, case_name, timeout, citation_text)`. -/
def search_bailii (env : ResolveEnv) (query : String) (year : Option String)
    (case_name : Option String) (citation_text : Option String) : List Candidate :=
  if !env.requestsAvailable then []
  else
    let s0 : Option Candidate :=
      if truthyS citation_text then try_bailii_citation_finder env citation_text else none
    match s0 with
    | some c => [c]
    | none =>
      let s1 : Option Candidate :=
        if truthyS case_name && truthyS year then
          try_bailii_direct_url env case_name year citation_text
        else none
      match s1 with
      | some c => [c]
      | none =>
        let search_data :=
          [("mode", "simple"), ("titleall", query), ("all", ""), ("phrase", ""),
           ("any", ""), ("boolean", ""), ("datelow", year.getD ""),
           ("datehigh", year.getD ""), ("sort", "rank"), ("highlight", "1")]
        match env.post "https://www.bailii.org/cgi-bin/search_preprocess.cgi" search_data with
        | none => []
        | some (status, text, _) =>
          if status ≠ 200 then []
          else if env.bs4Available then collectBailiiLinks year (env.htmlLinks text) []
          else []

/-- An entry returned by `search_fcl_by_query`. -/
structure FclHit where
  title : Option String
  uri : Option String
  url : String
deriving Repr, DecidableEq

/-- `element.find("tag")` on direct children. -/
def findChild (e : XElem) (tag : String) : Option XElem :=
  (e.children.filter (fun c => c.tag == tag)).head?

/-- Python `str(x)` of an optional string (prints `None`). -/
def showPyOpt : Option String → String
  | none => "None"
  | some s => s

/-- `search_fcl_by_query(query, timeout)`. -/
def search_fcl_by_query (env : ResolveEnv) (query : String) : List FclHit :=
  if !env.requestsAvailable then []
  else
    let url := "https://caselaw.nationalarchives.gov.uk/atom.xml"
    match env.get url [("party", query), ("per_page", "10"), ("order", "-date")] with
    | none => []
    | some (st1, body1) =>
      let chosen : Option String :=
        if st1 ≠ 200 then
          match env.get url [("query", query), ("per_page", "10")] with
          | none => none
          | some (st2, body2) => if st2 ≠ 200 then none else some body2
        else some body1
      match chosen with
      | none => []
      | some body =>
        match env.atomParse body with
        | none => []
        | some root =>
          (root.children.filter (fun c => c.tag == "entry")).filterMap (fun entry =>
            let title_elem := findChild entry "title"
            let uri_elem := findChild entry "uri"
            let xml_link : Option String :=
              ((entry.children.filter (fun c => c.tag == "link")).find?
                (fun l => strContains ((l.attr "type").getD "") "xml")).bind
                (fun l => l.attr "href")
            match title_elem, uri_elem with
            | some te, some ue =>
              let fallback_url := "https://caselaw.nationalarchives.gov.uk/" ++
                showPyOpt ue.text ++ "/data.xml"
              some { title := te.text, uri := ue.text,
                     url := match xml_link with
                            | some s => if s.toList.isEmpty then fallback_url else s
                            | none => fallback_url }
            | _, _ => none)

/-- `([A-Za-z][A-Za-z\']+)(?:\s+\w+)*\s+v\.?\s+([A-Za-z][A-Za-z\']+)`
(no flags). -/
def vMatchRE : RE :=
  reSeq [.grp 1 apostropheWordRE,
         .star (.cat (rePlus reWs) (rePlus reWord)),
         rePlus reWs, reChar 'v', reOpt (reChar '.'), rePlus reWs,
         .grp 2 apostropheWordRE]

/-- `resolve_traditional_citation(citation_text, case_name)`. -/
def resolve_traditional_citation (env : ResolveEnv) (citation_text : String)
    (case_name : Option String) : List Candidate :=
  let year := extract_citation_year citation_text
  let terms₀ : List String :=
    if truthyS case_name then normalize_case_name_for_search (case_name.getD "") else []
  let search_terms : List String :=
    if terms₀.isEmpty then
      match reSearch vMatchRE citation_text with
      | some m => [pyLower (capGet m.caps 1), pyLower (capGet m.caps 2)]
      | none => []
    else terms₀
  if search_terms.isEmpty then []
  else
    let query := String.intercalate " " (search_terms.map pyCapitalize)
    let bailii_results := search_bailii env query year case_name (some citation_text)
    let candidates₀ : List Candidate := bailii_results.map (fun r =>
      { url := r.url, source := "bailii", confidence := r.confidence,
        resolution_method := some "bailii_search", pattern_name := none,
        year := none, number := none, title := r.title, uri := none })
    let candidates :=
      if candidates₀.isEmpty then
        (search_fcl_by_query env query).filterMap (fun r =>
          let result_title := r.title.getD ""
          let result_uri := r.uri.getD ""
          let conf? : Option ℚ :=
            if truthyS year then
              let y := year.getD ""
              let year_match := strContains result_title y || strContains result_uri y
              let terms_match :=
                search_terms.all (fun term => strContains (pyLower result_title) (pyLower term))
              if year_match && terms_match then some (85/100)
              else if year_match || terms_match then some (70/100)
              else none
            else some (65/100)
          conf?.map (fun conf =>
            { url := r.url, source := "find_case_law", confidence := conf,
              resolution_method := some "fcl_search", pattern_name := none,
              year := none, number := none, title := r.title, uri := r.uri }))
      else candidates₀
    pySort (fun a b => decide (b.confidence ≤ a.confidence)) candidates

/-- The status/notes computation at the end of
`resolve_citation_to_urls` (`len == 0` ⇒ unresolvable, `len == 1` ⇒
resolved, more ⇒ resolved "using best match"). -/
def statusNotesOf (candidate_urls : List Candidate) : String × String :=
  if candidate_urls.length = 0 then
    ("unresolvable", "No pattern match or search results found")
  else if candidate_urls.length = 1 then
    ("resolved",
     "Resolved via " ++
       (((candidate_urls.head?.map (fun c => c.resolution_method)).join).getD "unknown"))
  else
    ("resolved",
     "Multiple candidates found (" ++ toString candidate_urls.length ++ "), using best match")

/-- The resolution result of `resolve_citation_to_urls` (timestamp
omitted). -/
structure Resolution where
  citation_text : String
  case_name : Option String
  candidate_urls : List Candidate
  resolution_status : String
  resolution_attempts : List String
  notes : String
  job_id : Option String
deriving Repr, DecidableEq

/-- `resolve_citation_to_urls(citation_text, case_name, prefer_sources,
job_id, enable_web_search)`. -/
def resolve_citation_to_urls (env : ResolveEnv) (citation_text : String)
    (case_name₀ : Option String) (job_id : Option String) : Resolution :=
  let case_name : Option String :=
    if !truthyS case_name₀ then
      match extract_case_name citation_text with
      | some c => some c
      | none => case_name₀
    else case_name₀
  let neutral_result := try_neutral_citation_patterns citation_text
  let candidate_urls₀ : List Candidate :=
    match neutral_result with
    | some c => [c]
    | none => []
  let attempts₀ : List String :=
    match neutral_result with
    | some c => ["Neutral citation matched: " ++ c.pattern_name.getD ""]
    | none => []
  let isTrad := is_traditional_citation citation_text
  let step2 : List Candidate × List String :=
    if candidate_urls₀.isEmpty || isTrad then
      let attempts₁ :=
        attempts₀ ++
          (if isTrad then ["Traditional law report citation detected - using search"] else [])
      let traditional_candidates := resolve_traditional_citation env citation_text case_name
      let merged := traditional_candidates.foldl
        (fun acc cand =>
          if (acc.map (fun c => c.url)).contains cand.url then acc else acc ++ [cand])
        candidate_urls₀
      (merged,
       attempts₁ ++
         (if !traditional_candidates.isEmpty then
            ["Search found " ++ toString traditional_candidates.length ++ " candidate(s)"]
          else []))
    else (candidate_urls₀, attempts₀)
  { citation_text, case_name, candidate_urls := step2.1,
    resolution_status := (statusNotesOf step2.1).1,
    resolution_attempts := step2.2,
    notes := (statusNotesOf step2.1).2,
    job_id }

/-! ## Theorems about the claims -/

set_option maxRecDepth 1000000

/-- C3 counterexample: `classify_hallucination_type` assigns the
Fabricated Case & Citation category (type "1") on outcome
`unverifiable` with `case_retrieved = false` even though the resolution
status `"resolved"` is not a not-found status — refuting the claim that
the category is assigned only when the resolution status is `not_found`
or `unresolved`. -/
theorem C3_counterexample :
    (classify_hallucination_type "unverifiable" "resolved" false).1 = some "1" ∧
    "resolved" ≠ "not_found" ∧ "resolved" ≠ "unresolved" := by decide

/-- C3 (amended): the classifier assigns the Fabricated Case & Citation
category only if the case was not retrieved and either the resolution
status is a not-found status (`not_found` or `unresolved`) or the
verification outcome is `unverifiable`. -/
theorem C3_fabricated_only_if (outcome resolution_status : String) (case_retrieved : Bool)
    (h : (classify_hallucination_type outcome resolution_status case_retrieved).1 = some "1") :
    case_retrieved = false ∧
      (resolution_status = "not_found" ∨ resolution_status = "unresolved" ∨
        outcome = "unverifiable") := by
  unfold classify_hallucination_type at h
  split_ifs at h
  all_goals simp_all
  tauto

/-- C3 witness: the amended theorem at a concrete input. -/
theorem C3_fabricated_only_if_witness :
    false = false ∧
      ("resolved" = "not_found" ∨ "resolved" = "unresolved" ∨
        "unverifiable" = "unverifiable") :=
  C3_fabricated_only_if "unverifiable" "resolved" false (by decide)

/-- C4 counterexample: on outcome `needs_review` with the case
retrieved, the classifier returns no category at all (`None`), not the
NeedsManualReview category — refuting the claim. -/
theorem C4_counterexample :
    classify_hallucination_type "needs_review" "resolved" true = (none, none) ∧
    ((none : Option String), (none : Option String)) ≠
      (some "review", some "Needs Manual Review") := by decide

/-- C4 (amended): whenever the verification outcome is `needs_review`
and the case was retrieved, the classifier assigns no hallucination
category (lee_type `None`); NeedsManualReview is reserved for retrieved
cases with outcome `unclear` or `contradicted`. -/
theorem C4_needs_review_retrieved_no_category (resolution_status : String) :
    classify_hallucination_type "needs_review" resolution_status true = (none, none) := rfl

/-- C7 counterexample: on a malformed XML input the parser records the
parse-error warning and empty paragraphs, but returns the EMPTY
`full_text` — refuting the claim that `full_text` is non-empty (there
is no text-extraction fallback on the XML error path). -/
theorem C7_counterexample :
    (parse_fcl_xml (.error "unclosed token: line 1, column 0")).warnings =
      ["XML parse error: unclosed token: line 1, column 0"] ∧
    (parse_fcl_xml (.error "unclosed token: line 1, column 0")).paragraphs = [] ∧
    (parse_fcl_xml (.error "unclosed token: line 1, column 0")).full_text = "" := by decide

/-- C7 (amended): for every input on which the XML parser fails,
`parse_fcl_xml` does not raise: it returns title "Unknown", an empty
paragraph list, a warning mentioning the XML parse error — and the
empty string as `full_text`. -/
theorem C7_parse_error_returns_empty (e : String) :
    parse_fcl_xml (.error e) =
      { title := some "Unknown", case_name := none, neutral_citation := none,
        court := none, date := none, paragraphs := [], full_text := "",
        parse_method := "fcl_xml", warnings := ["XML parse error: " ++ e] } := rfl

/-- C10 (confirmed): when the claim text has no keywords the overlap is
0 rather than a division by zero, and the overlap is always in [0, 1]. -/
theorem C10_keyword_overlap_safe (claim_text authority_text : String) :
    (extract_keywords claim_text = ∅ →
      calculate_keyword_overlap claim_text authority_text = 0) ∧
    0 ≤ calculate_keyword_overlap claim_text authority_text ∧
    calculate_keyword_overlap claim_text authority_text ≤ 1 := by
  unfold calculate_keyword_overlap
  by_cases h : extract_keywords claim_text = ∅
  · simp [h]
  · simp only [h, if_false]
    refine ⟨fun h' => h'.elim, ?_, ?_⟩
    · positivity
    · rw [div_le_one (by
        exact_mod_cast Finset.card_pos.mpr (Finset.nonempty_iff_ne_empty.mpr h))]
      exact_mod_cast Finset.card_le_card Finset.inter_subset_left

/-- C10 witness: the safety theorem at a concrete keyword-free claim. -/
theorem C10_keyword_overlap_safe_witness :
    calculate_keyword_overlap "a of to" "whatever text might be here" = 0 ∧
    0 ≤ calculate_keyword_overlap "a of to" "whatever text might be here" ∧
    calculate_keyword_overlap "a of to" "whatever text might be here" ≤ 1 :=
  ⟨(C10_keyword_overlap_safe "a of to" "whatever text might be here").1 (by decide),
   (C10_keyword_overlap_safe "a of to" "whatever text might be here").2⟩

/-- C2 counterexample: with an empty authority (nothing retrieved:
`case_retrieved = false`) and a claim that matches nothing, the
verifier still returns `needs_review`, never `unverifiable` — refuting
the claim that the outcome is Unverifiable when the judgment was not
retrieved. -/
theorem C2_counterexample :
    (verify_claim_against_authority "zzzz" "c"
      { full_text := "", paragraphs := [], url := "", title := "Unknown Case" }
      (2/10) "resolved").verification_outcome = "needs_review" ∧
    (verify_claim_against_authority "zzzz" "c"
      { full_text := "", paragraphs := [], url := "", title := "Unknown Case" }
      (2/10) "resolved").case_retrieved = false ∧
    (verify_claim_against_authority "zzzz" "c"
      { full_text := "", paragraphs := [], url := "", title := "Unknown Case" }
      (2/10) "resolved").verification_outcome ≠ "unverifiable" := by decide

/-- C2 (amended): when neither the exact-substring rule nor the
0.6/0.3 keyword-overlap thresholds fire, the outcome is `needs_review`
in every case — regardless of whether the judgment was retrieved or its
text is trivial; the verifier never produces `unverifiable`. -/
theorem C2_low_overlap_needs_review
    (claim_text citation_text : String) (pa : ParsedAuthority) (thr : ℚ) (status : String)
    (h1 : strContains (pyLower pa.full_text) (pyLower claim_text) = false)
    (h2 : calculate_keyword_overlap claim_text pa.full_text < 3/10)
    (h3 : ∀ m, (find_matching_paragraphs claim_text pa.paragraphs thr).head? = some m →
      m.similarity_score < 3/10) :
    (verify_claim_against_authority claim_text citation_text pa thr status).verification_outcome
      = "needs_review" := by
  have hhead : ((find_matching_paragraphs claim_text pa.paragraphs thr).head?.map
      (fun m => m.similarity_score)).getD 0 < 3/10 ∨
      (find_matching_paragraphs claim_text pa.paragraphs thr).isEmpty = true := by
    cases hp : (find_matching_paragraphs claim_text pa.paragraphs thr).head? with
    | none =>
      exact Or.inr (by
        cases hl : find_matching_paragraphs claim_text pa.paragraphs thr with
        | nil => rfl
        | cons a l => rw [hl] at hp; simp at hp)
    | some m => exact Or.inl (by simpa using h3 m hp)
  unfold verify_claim_against_authority
  have hc1 : ¬ ((6 : ℚ)/10 ≤ calculate_keyword_overlap claim_text pa.full_text ∨
      (¬ (find_matching_paragraphs claim_text pa.paragraphs thr).isEmpty = true ∧
        (6 : ℚ)/10 ≤ ((find_matching_paragraphs claim_text pa.paragraphs thr).head?.map
          (fun m => m.similarity_score)).getD 0)) := by
    rintro (h | ⟨hne, hge⟩)
    · linarith
    · rcases hhead with h' | h'
      · linarith
      · exact hne h'
  have hc2 : ¬ ((3 : ℚ)/10 ≤ calculate_keyword_overlap claim_text pa.full_text ∨
      (¬ (find_matching_paragraphs claim_text pa.paragraphs thr).isEmpty = true ∧
        (3 : ℚ)/10 ≤ ((find_matching_paragraphs claim_text pa.paragraphs thr).head?.map
          (fun m => m.similarity_score)).getD 0)) := by
    rintro (h | ⟨hne, hge⟩)
    · linarith
    · rcases hhead with h' | h'
      · linarith
      · exact hne h'
  simp only [h1, Bool.false_eq_true, if_false, if_neg hc1, if_neg hc2]

/-- C2 witness: the amended theorem at a concrete input. -/
theorem C2_low_overlap_needs_review_witness :
    (verify_claim_against_authority "zzzz" "c"
      { full_text := "", paragraphs := [], url := "", title := "Unknown Case" }
      (2/10) "resolved").verification_outcome = "needs_review" :=
  C2_low_overlap_needs_review "zzzz" "c"
    { full_text := "", paragraphs := [], url := "", title := "Unknown Case" }
    (2/10) "resolved" (by decide) (by decide)
    (fun m h => Option.noConfusion h)

/-- C5 counterexample: for the recognised neutral citation
`[2015] UKSC 11` the templator emits a single candidate, and it is the
secondary archive's (BAILII's) URL — not one candidate per source with
the primary archive first. -/
theorem C5_counterexample :
    (try_neutral_citation_patterns "[2015] UKSC 11").map
        (fun c => (c.source, c.url, c.confidence)) =
      some ("bailii", "https://www.bailii.org/uk/cases/UKSC/2015/11.html", 19/20) ∧
    "bailii" ≠ "find_case_law" := by decide

/-- C5 (amended): the templator emits at most one candidate per
citation: the BAILII (secondary-archive) candidate at confidence 0.95
when a BAILII pattern matches, and otherwise the FCL (primary-archive)
candidate at confidence 0.90 as fallback. -/
theorem C5_templator_single_candidate (citation_text : String) (c : Candidate)
    (h : try_neutral_citation_patterns citation_text = some c) :
    (try_bailii_neutral_citation_patterns citation_text = some c ∧
      c.source = "bailii" ∧ c.confidence = 95/100) ∨
    (try_bailii_neutral_citation_patterns citation_text = none ∧
      try_fcl_neutral_citation_patterns citation_text = some c ∧
      c.source = "find_case_law" ∧ c.confidence = 90/100) := by
  unfold try_neutral_citation_patterns at h
  cases hb : try_bailii_neutral_citation_patterns citation_text with
  | some c' =>
    rw [hb] at h
    obtain rfl : c' = c := Option.some.inj h
    left
    refine ⟨rfl, ?_, ?_⟩ <;>
    · unfold try_bailii_neutral_citation_patterns at hb
      obtain ⟨x, _, rfl⟩ := Option.map_eq_some'.mp hb
      rfl
  | none =>
    rw [hb] at h
    cases hf : try_fcl_neutral_citation_patterns citation_text with
    | some c' =>
      rw [hf] at h
      obtain rfl : c' = c := Option.some.inj h
      right
      refine ⟨rfl, rfl, ?_, ?_⟩ <;>
      · unfold try_fcl_neutral_citation_patterns at hf
        obtain ⟨x, _, rfl⟩ := Option.map_eq_some'.mp hf
        rfl
    | none => rw [hf] at h; cases h

/-- C5 witness: the amended theorem applied at the citation
`[2015] UKSC 11` (whose unique emitted candidate is BAILII's). -/
theorem C5_templator_single_candidate_witness :
    (try_neutral_citation_patterns "[2015] UKSC 11").map (fun c => c.source) =
      some "bailii" := by
  cases hn : try_neutral_citation_patterns "[2015] UKSC 11" with
  | none => exact absurd hn (by decide)
  | some c =>
    rcases C5_templator_single_candidate "[2015] UKSC 11" c hn with
      ⟨_, hs, _⟩ | ⟨hb, _, _, _⟩
    · simp [hs]
    · exact absurd hb (by decide)

/-- C6 counterexample: a text repeating the same citation yields two
citation records with identical raw text — `extract_citations_from_text`
performs no deduplication on the whitespace-normalised raw form. -/
theorem C6_counterexample :
    (extract_citations_from_text "[2015] UKSC 11 [2015] UKSC 11").map (fun c => c.text) =
      ["[2015] UKSC 11", "[2015] UKSC 11"] := by decide

/-- C6 (amended): `extract_citations_from_text` returns every regex
match of every pattern sorted by start position (it applies no
deduplication, so citations with equal whitespace-normalised raw text
can repeat). -/
theorem C6_citations_sorted_by_position (text : String) :
    (extract_citations_from_text text).Pairwise
      (fun a b => a.start_pos ≤ b.start_pos) := by
  have key : ∀ (l : List CitationRec),
      ((pySort (fun a b => decide (a.start_pos ≤ b.start_pos)) l).enum.map
        (fun x => { x.2 with citation_id := "cit_" ++ toString (x.1 + 1) })).Pairwise
        (fun a b : CitationRec => a.start_pos ≤ b.start_pos) := by
    intro l
    have hp := pairwise_pySort (fun a b : CitationRec => decide (a.start_pos ≤ b.start_pos))
      (fun a b c hab hbc => by
        simp only [decide_eq_true_eq] at *
        omega)
      (fun a b => by
        rcases Nat.le_total a.start_pos b.start_pos with h | h
        · exact Or.inl (by simpa using h)
        · exact Or.inr (by simpa using h)) l
    have h2 : ((pySort (fun a b => decide (a.start_pos ≤ b.start_pos)) l).enum.map
        Prod.snd).Pairwise (fun a b : CitationRec =>
          decide (a.start_pos ≤ b.start_pos) = true) := by
      rw [List.enum_map_snd]
      exact hp
    have h3 := (List.pairwise_map).mp h2
    rw [List.pairwise_map]
    exact h3.imp (fun h => of_decide_eq_true h)
  exact key _

/-- Whether a response makes the fetch loop retry: a timeout, a network
error, or HTTP 429. -/
def retryableB : NetResp → Bool
  | .timeout => true
  | .netError _ => true
  | .ok st _ _ => st == 429

/-- The delay the loop sleeps after the response of attempt `i`
(0-based) when it retries: `retry_delay * 2 ** attempt` after a 429,
the constant `retry_delay` after a timeout or network error. -/
def attemptDelay (env : FetchEnv) (i : Nat) : ℚ :=
  match env.net i with
  | .ok st _ _ => if st = 429 then 1 * 2 ^ i else 1
  | _ => 1

/-- What the retry loop does from iteration `a` with fuel `3 - a`:
requests are issued on consecutive attempts `a, a+1, ...`, at most
`fuel` of them and at least one; the sleeps between them are given by
`attemptDelay`; and every attempt that was followed by another one got
a retryable response. -/
theorem fetchGoAux_spec (env : FetchEnv) :
    ∀ (fuel a : Nat), fuel + a = 3 → 1 ≤ fuel →
      (fetchGoAux env fuel a).2.1 =
        List.range' a (fetchGoAux env fuel a).2.1.length ∧
      1 ≤ (fetchGoAux env fuel a).2.1.length ∧
      (fetchGoAux env fuel a).2.1.length ≤ fuel ∧
      (fetchGoAux env fuel a).2.2 =
        (List.range' a ((fetchGoAux env fuel a).2.1.length - 1)).map (attemptDelay env) ∧
      (∀ i, a ≤ i → i + 1 < a + (fetchGoAux env fuel a).2.1.length →
        retryableB (env.net i) = true) := by
  intro fuel
  induction fuel with
  | zero => intro a _ hf; omega
  | succ f ih =>
    intro a hsum _
    have hterm : ∀ (res : LoopRes), fetchGoAux env (f + 1) a = (res, [a], []) →
        (fetchGoAux env (f + 1) a).2.1 =
          List.range' a (fetchGoAux env (f + 1) a).2.1.length ∧
        1 ≤ (fetchGoAux env (f + 1) a).2.1.length ∧
        (fetchGoAux env (f + 1) a).2.1.length ≤ f + 1 ∧
        (fetchGoAux env (f + 1) a).2.2 =
          (List.range' a ((fetchGoAux env (f + 1) a).2.1.length - 1)).map (attemptDelay env) ∧
        (∀ i, a ≤ i → i + 1 < a + (fetchGoAux env (f + 1) a).2.1.length →
          retryableB (env.net i) = true) := by
      intro res he
      rw [he]
      refine ⟨by simp, by simp, by simp, by simp, ?_⟩
      intro i h1 h2
      simp only [List.length_singleton] at h2
      omega
    have hretry : ∀ (d : ℚ), a < 2 → d = attemptDelay env a →
        retryableB (env.net a) = true →
        fetchGoAux env (f + 1) a =
          ((fetchGoAux env f (a + 1)).1,
            a :: (fetchGoAux env f (a + 1)).2.1,
            d :: (fetchGoAux env f (a + 1)).2.2) →
        (fetchGoAux env (f + 1) a).2.1 =
          List.range' a (fetchGoAux env (f + 1) a).2.1.length ∧
        1 ≤ (fetchGoAux env (f + 1) a).2.1.length ∧
        (fetchGoAux env (f + 1) a).2.1.length ≤ f + 1 ∧
        (fetchGoAux env (f + 1) a).2.2 =
          (List.range' a ((fetchGoAux env (f + 1) a).2.1.length - 1)).map (attemptDelay env) ∧
        (∀ i, a ≤ i → i + 1 < a + (fetchGoAux env (f + 1) a).2.1.length →
          retryableB (env.net i) = true) := by
      intro d ha hd hr he
      obtain ⟨i1, i2, i3, i4, i5⟩ := ih (a + 1) (by omega) (by omega)
      rw [he]
      refine ⟨?_, by simp, ?_, ?_, ?_⟩
      · simp only [List.length_cons]
        rw [List.range'_succ]
        exact congrArg _ i1
      · simp only [List.length_cons]
        omega
      · simp only [List.length_cons, Nat.add_sub_cancel]
        rw [hd, i4]
        obtain ⟨k, hk⟩ : ∃ k, (fetchGoAux env f (a + 1)).2.1.length = k + 1 :=
          ⟨(fetchGoAux env f (a + 1)).2.1.length - 1, by omega⟩
        rw [hk]
        simp [List.range'_succ]
      · intro i h1 h2
        rcases Nat.eq_or_lt_of_le h1 with rfl | h1'
        · exact hr
        · refine i5 i h1' ?_
          simp only [List.length_cons] at h2
          omega
    cases h : env.net a with
    | ok st ct body =>
      by_cases h200 : st = 200
      · exact hterm (.okResp 200 ct body) (by simp [fetchGoAux, h, h200])
      · by_cases h404 : st = 404
        · exact hterm .notFound (by simp [fetchGoAux, h, h200, h404])
        · by_cases h429 : st = 429
          · by_cases ha : a < 3 - 1
            · exact hretry ((1 : ℚ) * 2 ^ a) (by omega)
                (by simp [attemptDelay, h, h429])
                (by simp [retryableB, h, h429])
                (by simp [fetchGoAux, h, h200, h404, h429, ha])
            · exact hterm (.httpError 429) (by simp [fetchGoAux, h, h200, h404, h429, ha])
          · exact hterm (.httpError st) (by simp [fetchGoAux, h, h200, h404, h429])
    | timeout =>
      by_cases ha : a < 3 - 1
      · exact hretry (1 : ℚ) (by omega) (by simp [attemptDelay, h])
          (by simp [retryableB, h]) (by simp [fetchGoAux, h, ha])
      · exact hterm .timedOut (by simp [fetchGoAux, h, ha])
    | netError m =>
      by_cases ha : a < 3 - 1
      · exact hretry (1 : ℚ) (by omega) (by simp [attemptDelay, h])
          (by simp [retryableB, h]) (by simp [fetchGoAux, h, ha])
      · exact hterm (.netFailed m) (by simp [fetchGoAux, h, ha])

/-- C8 counterexample: when every attempt times out, the loop sleeps
the constant `retry_delay` before each retry — `[1, 1]` — not the
exponential `base * 2^(attempt-1)` backoff `[1, 2]` the claim states
for all retried failures. -/
theorem C8_counterexample :
    (fetchGo { requestsAvailable := true, net := fun _ => .timeout,
               fileExists := fun _ => false, sha256 := fun _ => "" } 0).2.2 = [1, 1] ∧
    ([1, 1] : List ℚ) ≠ [1 * 2 ^ (0 : Nat), 1 * 2 ^ (1 : Nat)] := by decide

/-- C8 (amended): the loop makes at most 3 attempts; it retries only
timeouts, network errors and HTTP 429; the delay before the retry that
follows attempt `i` (0-based) is `base * 2^i` after a 429 and the
constant `base` (1 s) after a timeout or network error; HTTP 404 is
returned immediately as not-found and any other non-200 status is
returned immediately as an error, without retrying. -/
theorem C8_retry_policy (env : FetchEnv) :
    (fetchGo env 0).2.1.length ≤ 3 ∧
    (fetchGo env 0).2.2 =
      (List.range ((fetchGo env 0).2.1.length - 1)).map (attemptDelay env) ∧
    (∀ i, i + 1 < (fetchGo env 0).2.1.length → retryableB (env.net i) = true) ∧
    (∀ ct body, env.net 0 = .ok 404 ct body →
      fetchGo env 0 = (.notFound, [0], [])) ∧
    (∀ st ct body, env.net 0 = .ok st ct body → st ≠ 200 → st ≠ 404 → st ≠ 429 →
      fetchGo env 0 = (.httpError st, [0], [])) := by
  obtain ⟨s1, s2, s3, s4, s5⟩ := fetchGoAux_spec env 3 0 rfl (by omega)
  have hg : fetchGo env 0 = fetchGoAux env 3 0 := rfl
  refine ⟨?_, ?_, ?_, ?_, ?_⟩
  · rw [hg]; exact s3
  · rw [hg, s4, List.range_eq_range']
  · intro i hlt
    rw [hg] at hlt
    exact s5 i (Nat.zero_le i) (by omega)
  · intro ct body h0
    rw [hg]
    simp [fetchGoAux, h0]
  · intro st ct body h0 hne200 hne404 hne429
    rw [hg]
    simp [fetchGoAux, h0, hne200, hne404, hne429]

/-- C8 witness: the amended theorem at a concrete always-timeout
network, extracting that attempt 0 was retried because its response is
retryable. -/
theorem C8_retry_policy_witness :
    retryableB NetResp.timeout = true :=
  (C8_retry_policy
    { requestsAvailable := true, net := fun _ => NetResp.timeout,
      fileExists := fun _ => false, sha256 := fun _ => "" }).2.2.1 0 (by decide)

/-- C1 counterexample: `https://example.com/x` has a host outside the
spec's two-domain allow-list, yet `validate_url` accepts it and
`fetch_and_cache_url` issues an HTTP request for it (the request log is
non-empty) — the fetcher enforces no domain allow-list. -/
theorem C1_counterexample :
    validate_url "https://example.com/x" = true ∧
    specAllowList.contains (urlHostname "https://example.com/x") = false ∧
    (fetch_and_cache_url
        { requestsAvailable := true, net := fun _ => .ok 404 "text/html" "nf",
          fileExists := fun _ => false, sha256 := fun _ => "" }
        "job" "https://example.com/x" none false
        { lastFetchBySource := [], clock := 0, requestLog := [], sleepLog := [] }).2.requestLog =
      ["https://example.com/x"] := by decide

/-- C1 (amended): the only pre-network rejection is the syntactic
`validate_url` pattern check: when it fails, `fetch_and_cache_url`
raises `ValueError` and performs no network activity (the world,
including the request log, is unchanged).  No host allow-list is
enforced. -/
theorem C1_invalid_url_rejected (env : FetchEnv) (job_id url : String)
    (rate_limit_ms : Option ℚ) (force_refetch : Bool) (w : World)
    (hreq : env.requestsAvailable = true)
    (hv : validate_url url = false) :
    fetch_and_cache_url env job_id url rate_limit_ms force_refetch w =
      (.error (.valueError ("Invalid URL: " ++ url)), w) := by
  unfold fetch_and_cache_url
  rw [hreq, hv]
  simp

/-- C1 witness: the amended theorem at a concrete syntactically invalid
URL. -/
theorem C1_invalid_url_rejected_witness :
    fetch_and_cache_url
        { requestsAvailable := true, net := fun _ => NetResp.timeout,
          fileExists := fun _ => false, sha256 := fun _ => "" }
        "job" "notaurl" none false
        { lastFetchBySource := [], clock := 0, requestLog := [], sleepLog := [] } =
      (.error (.valueError ("Invalid URL: " ++ "notaurl")),
       { lastFetchBySource := [], clock := 0, requestLog := [], sleepLog := [] }) :=
  C1_invalid_url_rejected _ "job" "notaurl" none false _ rfl (by decide)

theorem pairwise_ite_helper {R : Candidate → Candidate → Prop} {c : Prop} [Decidable c]
    {a b : List Candidate} (ha : a.Pairwise R) (hb : b.Pairwise R) :
    (if c then a else b).Pairwise R := by
  split <;> assumption

theorem resolve_traditional_sorted (env : ResolveEnv) (citation_text : String)
    (case_name : Option String) :
    (resolve_traditional_citation env citation_text case_name).Pairwise
      (fun a b => b.confidence ≤ a.confidence) := by
  have hsorted : ∀ (l : List Candidate),
      (pySort (fun a b => decide (b.confidence ≤ a.confidence)) l).Pairwise
        (fun a b => b.confidence ≤ a.confidence) := fun l =>
    (pairwise_pySort (fun a b : Candidate => decide (b.confidence ≤ a.confidence))
      (fun a b c hab hbc => by
        simp only [decide_eq_true_eq] at *
        linarith)
      (fun a b => by
        rcases le_total b.confidence a.confidence with h | h
        · exact Or.inl (by simpa using h)
        · exact Or.inr (by simpa using h)) l).imp (fun h => of_decide_eq_true h)
  unfold resolve_traditional_citation
  exact pairwise_ite_helper (by simp) (hsorted _)

theorem statusNotesOf_spec (l : List Candidate) :
    ((statusNotesOf l).1 = "unresolvable" ↔ l = []) ∧
    ((statusNotesOf l).1 = "resolved" ↔ l ≠ []) := by
  cases l with
  | nil => simp [statusNotesOf]
  | cons a rest =>
    cases rest with
    | nil =>
      refine ⟨⟨fun h => absurd h (by simp [statusNotesOf]), fun h => by cases h⟩, ?_⟩
      exact ⟨fun _ => by simp, fun _ => by simp [statusNotesOf]⟩
    | cons b rest2 =>
      refine ⟨⟨fun h => absurd h (by simp [statusNotesOf]), fun h => by cases h⟩, ?_⟩
      exact ⟨fun _ => by simp, fun _ => by simp [statusNotesOf]⟩

/-- C9 counterexample: a citation that matches only an FCL neutral
pattern (confidence 0.90) combined with a traditional-report citation
whose search (via the BAILII citation finder) yields a 0.95 candidate:
the resolver's final list is `[0.90, 0.95]` — not sorted by confidence
descending — and its status for the two remaining candidates is
`"resolved"`, not `"ambiguous"`. -/
theorem C9_counterexample :
    (resolve_citation_to_urls
        { requestsAvailable := true, bs4Available := true,
          post := fun _ _ => some (200, "page", "https://www.bailii.org/uk/cases/UKHL/1990/2.html"),
          get := fun _ _ => some (404, ""), head := fun _ => none,
          htmlTitle := fun _ => some "Caparo Industries plc v Dickman",
          htmlLinks := fun _ => [], atomParse := fun _ => none }
        "[2020] UKUT 1 (TCC) [1990] 2 AC 605" (some "Caparo v Dickman") none).candidate_urls.map
        (fun c => c.confidence) = [9/10, 19/20] ∧
    (resolve_citation_to_urls
        { requestsAvailable := true, bs4Available := true,
          post := fun _ _ => some (200, "page", "https://www.bailii.org/uk/cases/UKHL/1990/2.html"),
          get := fun _ _ => some (404, ""), head := fun _ => none,
          htmlTitle := fun _ => some "Caparo Industries plc v Dickman",
          htmlLinks := fun _ => [], atomParse := fun _ => none }
        "[2020] UKUT 1 (TCC) [1990] 2 AC 605" (some "Caparo v Dickman") none).resolution_status =
      "resolved" ∧
    "resolved" ≠ "ambiguous" ∧
    ¬ (resolve_citation_to_urls
        { requestsAvailable := true, bs4Available := true,
          post := fun _ _ => some (200, "page", "https://www.bailii.org/uk/cases/UKHL/1990/2.html"),
          get := fun _ _ => some (404, ""), head := fun _ => none,
          htmlTitle := fun _ => some "Caparo Industries plc v Dickman",
          htmlLinks := fun _ => [], atomParse := fun _ => none }
        "[2020] UKUT 1 (TCC) [1990] 2 AC 605" (some "Caparo v Dickman") none).candidate_urls.Pairwise
        (fun a b => b.confidence ≤ a.confidence) := by decide

/-- C9 (amended): the resolver's status is `resolved` exactly when at
least one candidate remains and `unresolvable` exactly when none does
(no `ambiguous` status exists), and the candidate list produced by the
search path (`resolve_traditional_citation`) is sorted by confidence
descending; the final list prepends any direct-URL candidate without
re-sorting. -/
theorem C9_resolver_status_and_order (env : ResolveEnv) (citation_text : String)
    (case_name job_id : Option String) :
    ((resolve_citation_to_urls env citation_text case_name job_id).resolution_status =
        "unresolvable" ↔
      (resolve_citation_to_urls env citation_text case_name job_id).candidate_urls = []) ∧
    ((resolve_citation_to_urls env citation_text case_name job_id).resolution_status =
        "resolved" ↔
      (resolve_citation_to_urls env citation_text case_name job_id).candidate_urls ≠ []) ∧
    (resolve_traditional_citation env citation_text case_name).Pairwise
      (fun a b => b.confidence ≤ a.confidence) := by
  have hs : (resolve_citation_to_urls env citation_text case_name job_id).resolution_status =
      (statusNotesOf
        (resolve_citation_to_urls env citation_text case_name job_id).candidate_urls).1 := rfl
  rw [hs]
  exact ⟨(statusNotesOf_spec _).1, (statusNotesOf_spec _).2,
    resolve_traditional_sorted env citation_text case_name⟩

/-- C9 witness: the amended theorem at a concrete unresolvable input
(no pattern matches and no search terms). -/
theorem C9_resolver_status_witness :
    (resolve_citation_to_urls
        { requestsAvailable := false, bs4Available := false,
          post := fun _ _ => none, get := fun _ _ => none, head := fun _ => none,
          htmlTitle := fun _ => none, htmlLinks := fun _ => [], atomParse := fun _ => none }
        "no citation here" none none).resolution_status = "unresolvable" :=
  (C9_resolver_status_and_order
    { requestsAvailable := false, bs4Available := false,
      post := fun _ _ => none, get := fun _ _ => none, head := fun _ => none,
      htmlTitle := fun _ => none, htmlLinks := fun _ => [], atomParse := fun _ => none }
    "no citation here" none none).1.mpr (by decide)

end Audit
